import Mathlib

/-!
Fingerprint sign-up / login demo: the credential lifecycle

A shallow embedding of `src/components/SignupPage.js`, `src/components/LoginPage.js`
and `src/components/HomePage.js`.

* JavaScript strings are lists of UTF-16 code units (`JSString`).
* `localStorage` is the pair of items the components use (`user`, `isAuthenticated`).
* The browser is a `Platform` value: whether `window.PublicKeyCredential` exists, how
  the promises of `isUserVerifyingPlatformAuthenticatorAvailable`,
  `navigator.credentials.create` and `navigator.credentials.get` settle, the bytes
  `crypto.getRandomValues` supplies and `window.location.hostname`.
* An event handler is a function from the component state and the storage to the new
  component state, the new storage and the list of effects it performed. An awaited
  promise is taken at its settlement; `localStorage` and `crypto.getRandomValues` do not
  throw.
* The promise of the mount effect is not awaited: the effect (`useEffect`) and the
  settlement of that promise (`promiseSettled`) are two events, and the user can type and
  submit in between.
* `JSON.parse` is the JSON grammar in full; `JSON.stringify` and `btoa` are modelled on
  the arguments the components pass them.
-/

namespace Poc

/-! ## JavaScript strings -/

/-- A JavaScript string, as the list of its UTF-16 code units. -/
abbrev JSString := List Nat

/-- The code units of a source-text string literal. -/
def lit (s : String) : JSString := s.toList.map Char.toNat

/-- ToBoolean on a string: only the empty string is falsy. -/
def JSString.truthy (s : JSString) : Bool := !s.isEmpty

/-- ToBoolean on a value that is `null` or a string (`localStorage.getItem`, the `error` state). -/
def truthy? : Option JSString → Bool
  | none => false
  | some s => s.truthy

/-! ## JSON values, `JSON.parse` -/

/-- A value produced by `JSON.parse`. A number is kept as its exact decimal reading
`(-1)^negative * digits * 10^exponent`; nothing below depends on its rounding to a double. -/
inductive JSON where
  | null
  | bool (b : Bool)
  | number (negative : Bool) (digits : Nat) (exponent : Int)
  | string (s : JSString)
  | array (elements : List JSON)
  | object (members : List (JSString × JSON))

/-- JSON whitespace: tab, line feed, carriage return, space. -/
def isWS (c : Nat) : Bool := c == 9 || c == 10 || c == 13 || c == 32

/-- Drops leading JSON whitespace. -/
def skipWS : List Nat → List Nat
  | [] => []
  | c :: cs => if isWS c then skipWS cs else c :: cs

/-- The value of a hexadecimal digit, either case. -/
def hexVal (c : Nat) : Option Nat :=
  if 48 ≤ c ∧ c ≤ 57 then some (c - 48)
  else if 97 ≤ c ∧ c ≤ 102 then some (c - 87)
  else if 65 ≤ c ∧ c ≤ 70 then some (c - 55)
  else none

/-- The code unit written as four hexadecimal digits after a backslash and `u`. -/
def hex4 (a b c d : Nat) : Option Nat :=
  match hexVal a, hexVal b, hexVal c, hexVal d with
  | some x, some y, some z, some w => some (4096 * x + 256 * y + 16 * z + w)
  | _, _, _, _ => none

/-- The code unit denoted by a single-character escape `\"  \\  \/  \b  \f  \n  \r  \t`. -/
def unescape (e : Nat) : Option Nat :=
  if e = 34 then some 34
  else if e = 92 then some 92
  else if e = 47 then some 47
  else if e = 98 then some 8
  else if e = 102 then some 12
  else if e = 110 then some 10
  else if e = 114 then some 13
  else if e = 116 then some 9
  else none

/-- Reads a JSON string after its opening quote: the string's code units and the text
after the closing quote. Unescaped control characters are rejected. -/
def parseStringBody : List Nat → Option (JSString × List Nat)
  | [] => none
  | c :: rest =>
    if c = 34 then some ([], rest)
    else if c = 92 then
      match rest with
      | [] => none
      | e :: rest1 =>
        if e = 117 then
          match rest1 with
          | h1 :: h2 :: h3 :: h4 :: rest2 =>
            match hex4 h1 h2 h3 h4, parseStringBody rest2 with
            | some u, some (s, r) => some (u :: s, r)
            | _, _ => none
          | _ => none
        else
          match unescape e, parseStringBody rest1 with
          | some u, some (s, r) => some (u :: s, r)
          | _, _ => none
    else if c < 32 then none
    else
      match parseStringBody rest with
      | some (s, r) => some (c :: s, r)
      | none => none

/-- Decimal digit test. -/
def isDigit (c : Nat) : Bool := decide (48 ≤ c ∧ c ≤ 57)

/-- Splits off the longest run of decimal digits. -/
def takeDigits : List Nat → List Nat × List Nat
  | [] => ([], [])
  | c :: cs =>
    if isDigit c then (c :: (takeDigits cs).1, (takeDigits cs).2) else ([], c :: cs)

/-- The natural number written by a run of decimal digits. -/
def digitsValue (ds : List Nat) : Nat := ds.foldl (fun n d => 10 * n + (d - 48)) 0

/-- The integer part of a JSON number: `0`, or a non-zero digit followed by digits. -/
def parseInt : List Nat → Option (List Nat × List Nat)
  | [] => none
  | c :: cs =>
    if c = 48 then some ([48], cs)
    else if 49 ≤ c ∧ c ≤ 57 then some (c :: (takeDigits cs).1, (takeDigits cs).2)
    else none

/-- The optional fraction of a JSON number: a dot and at least one digit. -/
def parseFrac : List Nat → Option (List Nat × List Nat)
  | 46 :: cs => if (takeDigits cs).1 = [] then none else some (takeDigits cs)
  | cs => some ([], cs)

/-- The optional exponent of a JSON number: `e` or `E`, an optional sign, at least one digit. -/
def parseExp : List Nat → Option (Int × List Nat)
  | [] => some (0, [])
  | c :: cs =>
    if c = 101 ∨ c = 69 then
      match cs with
      | [] => none
      | s :: cs1 =>
        if s = 45 then
          if (takeDigits cs1).1 = [] then none
          else some (- (digitsValue (takeDigits cs1).1 : Int), (takeDigits cs1).2)
        else if s = 43 then
          if (takeDigits cs1).1 = [] then none
          else some ((digitsValue (takeDigits cs1).1 : Int), (takeDigits cs1).2)
        else
          if (takeDigits cs).1 = [] then none
          else some ((digitsValue (takeDigits cs).1 : Int), (takeDigits cs).2)
    else some (0, c :: cs)

/-- Reads a JSON number. -/
def parseNumber (cs : List Nat) : Option (JSON × List Nat) :=
  let neg : Bool := cs.head? = some 45
  let cs0 := if neg then cs.tail else cs
  match parseInt cs0 with
  | none => none
  | some (ds, cs1) =>
    match parseFrac cs1 with
    | none => none
    | some (fs, cs2) =>
      match parseExp cs2 with
      | none => none
      | some (e, cs3) =>
        some (JSON.number neg (digitsValue (ds ++ fs)) (e - (fs.length : Int)), cs3)

/-- Consumes the expected code units, if the text starts with them. -/
def dropLit : List Nat → List Nat → Option (List Nat)
  | [], cs => some cs
  | _ :: _, [] => none
  | x :: xs, c :: cs => if x = c then dropLit xs cs else none

mutual
/-- Reads one JSON value from text whose leading whitespace has been skipped. The fuel
bounds the number of nested calls; `JSON.parse` supplies more than any text can use. -/
def parseValue : Nat → List Nat → Option (JSON × List Nat)
  | 0, _ => none
  | fuel + 1, cs =>
    match cs with
    | [] => none
    | c :: rest =>
      if c = 34 then
        match parseStringBody rest with
        | some (s, r) => some (JSON.string s, r)
        | none => none
      else if c = 91 then
        match skipWS rest with
        | [] => none
        | d :: r =>
          if d = 93 then some (JSON.array [], r)
          else
            match parseElements fuel (d :: r) with
            | some (vs, r1) => some (JSON.array vs, r1)
            | none => none
      else if c = 123 then
        match skipWS rest with
        | [] => none
        | d :: r =>
          if d = 125 then some (JSON.object [], r)
          else
            match parseMembers fuel (d :: r) with
            | some (ms, r1) => some (JSON.object ms, r1)
            | none => none
      else if c = 110 then
        match dropLit [117, 108, 108] rest with
        | some r => some (JSON.null, r)
        | none => none
      else if c = 116 then
        match dropLit [114, 117, 101] rest with
        | some r => some (JSON.bool true, r)
        | none => none
      else if c = 102 then
        match dropLit [97, 108, 115, 101] rest with
        | some r => some (JSON.bool false, r)
        | none => none
      else parseNumber (c :: rest)
/-- Reads the elements of a non-empty array up to and including the closing bracket. -/
def parseElements : Nat → List Nat → Option (List JSON × List Nat)
  | 0, _ => none
  | fuel + 1, cs =>
    match parseValue fuel cs with
    | none => none
    | some (v, rest) =>
      match skipWS rest with
      | [] => none
      | d :: r =>
        if d = 44 then
          match parseElements fuel (skipWS r) with
          | some (vs, r1) => some (v :: vs, r1)
          | none => none
        else if d = 93 then some ([v], r)
        else none
/-- Reads the members of a non-empty object up to and including the closing brace. -/
def parseMembers : Nat → List Nat → Option (List (JSString × JSON) × List Nat)
  | 0, _ => none
  | fuel + 1, cs =>
    match cs with
    | [] => none
    | q :: cs1 =>
      if q = 34 then
        match parseStringBody cs1 with
        | none => none
        | some (key, cs2) =>
          match skipWS cs2 with
          | [] => none
          | colon :: cs3 =>
            if colon = 58 then
              match parseValue fuel (skipWS cs3) with
              | none => none
              | some (v, rest) =>
                match skipWS rest with
                | [] => none
                | d :: r =>
                  if d = 44 then
                    match parseMembers fuel (skipWS r) with
                    | some (ms, r1) => some ((key, v) :: ms, r1)
                    | none => none
                  else if d = 125 then some ([(key, v)], r)
                  else none
            else none
      else none
end

/-- `JSON.parse(text)`: the value, or `none` when a `SyntaxError` is thrown. -/
def JSON.parse (text : JSString) : Option JSON :=
  match parseValue (2 * text.length + 2) (skipWS text) with
  | some (v, rest) => if skipWS rest = [] then some v else none
  | none => none

/-- Property read `v[key]` on a parsed value: `none` is `undefined`. Only objects have
properties named by JSON keys here; of duplicate members the last one wins. -/
def lookupLast (key : JSString) : List (JSString × JSON) → Option JSON
  | [] => none
  | (k, v) :: rest =>
    match lookupLast key rest with
    | some w => some w
    | none => if k = key then some v else none

/-- The property `v.key` of a non-null parsed value (`none` is `undefined`). -/
def JSON.getProperty : JSON → JSString → Option JSON
  | JSON.object members, key => lookupLast key members
  | _, _ => none

/-- ToBoolean on a parsed value. -/
def JSON.toBoolean : JSON → Bool
  | JSON.null => false
  | JSON.bool b => b
  | JSON.number _ digits _ => digits != 0
  | JSON.string s => s.truthy
  | JSON.array _ => true
  | JSON.object _ => true

/-- Strict inequality `v !== s` of a property read with a string. -/
def strictNe : Option JSON → JSString → Bool
  | some (JSON.string t), s => t != s
  | _, _ => true

/-! ## `JSON.stringify` of the stored record, `btoa`, `Uint8Array.from` -/

/-- Lower-case hexadecimal digit. -/
def hexDigit (n : Nat) : Nat := if n < 10 then 48 + n else 87 + n

/-- The escape `\uXXXX` of a code unit. -/
def unicodeEscape (c : Nat) : JSString :=
  [92, 117, hexDigit (c / 4096 % 16), hexDigit (c / 256 % 16), hexDigit (c / 16 % 16),
    hexDigit (c % 16)]

/-- Leading (high) surrogate. -/
def isHighSurrogate (c : Nat) : Bool := decide (55296 ≤ c ∧ c ≤ 56319)

/-- Trailing (low) surrogate. -/
def isLowSurrogate (c : Nat) : Bool := decide (56320 ≤ c ∧ c ≤ 57343)

/-- QuoteJSONString on one code point that is a single code unit. -/
def quoteUnit (c : Nat) : JSString :=
  if c = 8 then [92, 98]
  else if c = 9 then [92, 116]
  else if c = 10 then [92, 110]
  else if c = 12 then [92, 102]
  else if c = 13 then [92, 114]
  else if c = 34 then [92, 34]
  else if c = 92 then [92, 92]
  else if c < 32 ∨ (55296 ≤ c ∧ c ≤ 57343) then unicodeEscape c
  else [c]

/-- QuoteJSONString without the enclosing quotes: the string is read code point by code
point, a surrogate pair is copied and a lone surrogate is escaped. -/
def quoteBody : JSString → JSString
  | [] => []
  | c :: rest =>
    if isHighSurrogate c then
      match rest with
      | [] => unicodeEscape c
      | d :: rest1 =>
        if isLowSurrogate d then c :: d :: quoteBody rest1
        else unicodeEscape c ++ quoteBody (d :: rest1)
    else quoteUnit c ++ quoteBody rest

/-- QuoteJSONString. -/
def quoteJSONString (s : JSString) : JSString := 34 :: (quoteBody s ++ [34])

/-- The object literal `{ username, email, credentialId }` that `registerFingerprint` stores. -/
structure UserRecord where
  username : JSString
  email : JSString
  credentialId : JSString
  deriving DecidableEq, Repr

/-- `JSON.stringify({ username, email, credentialId })`: the three string properties in
insertion order, no whitespace. -/
def JSON.stringify (r : UserRecord) : JSString :=
  lit "\x7b\"username\":" ++ quoteJSONString r.username
    ++ lit ",\"email\":" ++ quoteJSONString r.email
    ++ lit ",\"credentialId\":" ++ quoteJSONString r.credentialId
    ++ lit "\x7d"

/-- The base64 alphabet. -/
def b64 (n : Nat) : Nat :=
  if n < 26 then 65 + n
  else if n < 52 then 71 + n
  else if n < 62 then n - 4
  else if n = 62 then 43
  else 47

/-- Base64 of a byte string, with `=` padding. -/
def btoaBody : List Nat → JSString
  | [] => []
  | [a] => [b64 (a / 4), b64 (a % 4 * 16), 61, 61]
  | [a, b] => [b64 (a / 4), b64 (a % 4 * 16 + b / 16), b64 (b % 16 * 4), 61]
  | a :: b :: c :: rest =>
    b64 (a / 4) :: b64 (a % 4 * 16 + b / 16) :: b64 (b % 16 * 4 + c / 64) :: b64 (c % 64)
      :: btoaBody rest

/-- `btoa(s)`: `none` when it throws `InvalidCharacterError` (a code unit above 255). -/
def btoa (s : JSString) : Option JSString :=
  if s.all (fun c => decide (c < 256)) then some (btoaBody s) else none

/-- `new Uint8Array(buffer)` over the bytes of an `ArrayBuffer`. -/
def Uint8Array.ofBuffer (bytes : List Nat) : List Nat := bytes.map (fun b => b % 256)

/-- `String.fromCharCode(...bytes)`: one code unit per element. -/
def String.fromCharCode (units : List Nat) : JSString := units.map (fun u => u % 65536)

/-- `Uint8Array.from(s, c => c.charCodeAt(0))`: the string iterator yields code points; each
contributes its first code unit, stored modulo 256. -/
def Uint8Array.fromString : JSString → List Nat
  | [] => []
  | c :: rest =>
    if isHighSurrogate c then
      match rest with
      | [] => [c % 256]
      | d :: rest1 =>
        if isLowSurrogate d then c % 256 :: Uint8Array.fromString rest1
        else c % 256 :: Uint8Array.fromString (d :: rest1)
    else c % 256 :: Uint8Array.fromString rest

/-- The text of one member `"key":"value"` as `JSON.stringify` writes it. -/
def memberText (key value : JSString) : JSString :=
  34 :: (quoteBody key ++ 34 :: 58 :: 34 :: (quoteBody value ++ [34]))

/-- The record as `JSON.parse` returns it. -/
def UserRecord.toJSON (r : UserRecord) : JSON :=
  JSON.object [(lit "username", JSON.string r.username), (lit "email", JSON.string r.email),
    (lit "credentialId", JSON.string r.credentialId)]

/-! ## The browser -/

/-- How a promise settles; a rejection carries the text its reason converts to in
`'...' + err`. -/
inductive Settled (α : Type) where
  | resolved (value : α)
  | rejected (reason : JSString)

/-- A `PublicKeyCredential` as far as the components read it: the bytes of `rawId`. -/
structure Credential where
  rawId : List Nat
  deriving DecidableEq, Repr

/-- The browser and device a component runs on. -/
structure Platform where
  /-- Whether `window.PublicKeyCredential` is defined. -/
  publicKeyCredential : Bool
  /-- How `isUserVerifyingPlatformAuthenticatorAvailable()` settles. -/
  authenticatorAvailable : Settled Bool
  /-- The values `crypto.getRandomValues` writes, by index. -/
  randomValues : Nat → Nat
  /-- The value of `window.location.hostname`. -/
  hostname : JSString
  /-- How `navigator.credentials.create` settles; `none` is `null`. -/
  create : Settled (Option Credential)
  /-- How `navigator.credentials.get` settles; `none` is `null`. -/
  get : Settled (Option Credential)
  /-- The text of the `SyntaxError` thrown by `JSON.parse`. -/
  parseErrorText : JSString
  /-- The text of the `InvalidCharacterError` thrown by `btoa`. -/
  btoaErrorText : JSString

/-- The array `new Uint8Array(n)` after `window.crypto.getRandomValues`. -/
def getRandomValues (pf : Platform) (n : Nat) : List Nat :=
  (List.range n).map (fun i => pf.randomValues i % 256)

/-! ## `localStorage` -/

/-- The two items the components keep in `localStorage`. -/
inductive Key where
  | user
  | isAuthenticated
  deriving DecidableEq, Repr

/-- The content of `localStorage`: for each key the stored string, or `none` when absent. -/
structure Storage where
  user : Option JSString
  isAuthenticated : Option JSString
  deriving DecidableEq, Repr

/-- A cleared `localStorage`. -/
def Storage.empty : Storage := ⟨none, none⟩

/-- `localStorage.getItem(key)`: `none` is `null`. -/
def Storage.getItem (st : Storage) : Key → Option JSString
  | Key.user => st.user
  | Key.isAuthenticated => st.isAuthenticated

/-- `localStorage.setItem(key, value)`. -/
def Storage.setItem (st : Storage) : Key → JSString → Storage
  | Key.user, value => { st with user := some value }
  | Key.isAuthenticated, value => { st with isAuthenticated := some value }

/-- `localStorage.removeItem(key)`. -/
def Storage.removeItem (st : Storage) : Key → Storage
  | Key.user => { st with user := none }
  | Key.isAuthenticated => { st with isAuthenticated := none }

/-! ## Effects -/

/-- The `rp` member of the creation options. -/
structure RelyingParty where
  name : JSString
  id : JSString
  deriving DecidableEq, Repr

/-- The `user` member of the creation options. -/
structure UserEntity where
  id : List Nat
  name : JSString
  displayName : JSString
  deriving DecidableEq, Repr

/-- An element of `pubKeyCredParams`. -/
structure PubKeyCredParam where
  type : JSString
  alg : Int
  deriving DecidableEq, Repr

/-- The `authenticatorSelection` member of the creation options. -/
structure AuthenticatorSelection where
  authenticatorAttachment : JSString
  userVerification : JSString
  deriving DecidableEq, Repr

/-- The object `createCredentialOptions` of `registerFingerprint`. -/
structure CreateOptions where
  challenge : List Nat
  rp : RelyingParty
  user : UserEntity
  pubKeyCredParams : List PubKeyCredParam
  authenticatorSelection : AuthenticatorSelection
  timeout : Nat
  deriving DecidableEq, Repr

/-- The object `getCredentialOptions` of `verifyFingerprint`. -/
structure GetOptions where
  challenge : List Nat
  timeout : Nat
  userVerification : JSString
  deriving DecidableEq, Repr

/-- What a handler does besides changing its state and the storage, in order. -/
inductive Effect where
  /-- `window.crypto.getRandomValues(challenge)`, with the bytes written. -/
  | getRandomValues (challenge : List Nat)
  /-- `navigator.credentials.create({ publicKey })`. -/
  | credentialsCreate (publicKey : CreateOptions)
  /-- `navigator.credentials.get({ publicKey })`. -/
  | credentialsGet (publicKey : GetOptions)
  /-- `setError(text)`. -/
  | setError (text : JSString)
  /-- `setMessage(text)`. -/
  | setMessage (text : JSString)
  /-- `setTimeout(() => navigate(path), delay)`. -/
  | navigateAfter (path : JSString) (delay : Nat)
  /-- `navigate(path)`. -/
  | navigate (path : JSString)
  deriving DecidableEq, Repr

/-- The outcome of running a handler: the component state, the storage, the effects. -/
structure Run (σ : Type) where
  page : σ
  storage : Storage
  trace : List Effect

/-! ## `SignupPage` -/

namespace SignupPage

/-- The `formData` state of the sign-up form. -/
structure FormData where
  username : JSString
  email : JSString
  password : JSString
  deriving DecidableEq, Repr

/-- The state of the component: `formData`, `error` (`none` is `null`), `message`,
`supported`. -/
structure State where
  formData : FormData
  error : Option JSString
  message : JSString
  supported : Bool
  deriving DecidableEq, Repr

/-- The state at the first render (the `useState` initial values). -/
def initial : State := ⟨⟨[], [], []⟩, none, [], false⟩

/-- The `then` / `catch` callbacks on the promise of
`isUserVerifyingPlatformAuthenticatorAvailable()`. -/
def availabilitySettled (result : Settled Bool) (pg : State) : State :=
  match result with
  | Settled.resolved available =>
    if !available then
      { pg with error := some (lit "Fingerprint authentication is not available on this device") }
    else pg
  | Settled.rejected err =>
    { pg with error := some (lit "Error checking authenticator availability: " ++ err) }

/-- The mount effect (`useEffect(..., [])`) as far as it runs synchronously: with
`window.PublicKeyCredential` it calls `setSupported(true)` and leaves the promise of
`isUserVerifyingPlatformAuthenticatorAvailable()` pending; without it, it sets the error. -/
def useEffect (pf : Platform) (pg : State) : State :=
  if pf.publicKeyCredential then { pg with supported := true }
  else { pg with error := some (lit "WebAuthn is not supported in this browser") }

/-- The settlement of the promise the mount effect left pending, an event of its own: its
`then` / `catch` callbacks run on the state the component is in by then. Without
`window.PublicKeyCredential` there is no promise. -/
def promiseSettled (pf : Platform) (pg : State) : State :=
  if pf.publicKeyCredential then availabilitySettled pf.authenticatorAvailable pg else pg

/-- The three inputs of the form, by their `name` attribute. -/
inductive Field where
  | username
  | email
  | password
  deriving DecidableEq, Repr

/-- The handler `handleInputChange`: `setFormData(prev => ({ ...prev, [name]: value }))`. -/
def handleInputChange (name : Field) (value : JSString) (pg : State) : State :=
  match name with
  | Field.username => { pg with formData := { pg.formData with username := value } }
  | Field.email => { pg with formData := { pg.formData with email := value } }
  | Field.password => { pg with formData := { pg.formData with password := value } }

/-- The object `createCredentialOptions`, from the challenge, `window.location.hostname` and
the two form fields it reads. -/
def createCredentialOptions (challenge : List Nat) (hostname username email : JSString) :
    CreateOptions :=
  { challenge := challenge
    rp := { name := lit "PWA Fingerprint Demo", id := hostname }
    user := { id := Uint8Array.fromString username, name := email, displayName := username }
    pubKeyCredParams := [{ type := lit "public-key", alg := -7 },
      { type := lit "public-key", alg := -257 }]
    authenticatorSelection :=
      { authenticatorAttachment := lit "platform", userVerification := lit "required" }
    timeout := 60000 }

/-- The function `registerFingerprint`. Everything runs inside its `try`; a rejected
promise or a throwing call goes to the `catch`, which calls `setError`. -/
def registerFingerprint (pf : Platform) (pg : State) (st : Storage) : Run State :=
  let challenge := getRandomValues pf 32
  let options :=
    createCredentialOptions challenge pf.hostname pg.formData.username pg.formData.email
  let calls := [Effect.getRandomValues challenge, Effect.credentialsCreate options]
  match pf.create with
  | Settled.rejected err =>
    let text := lit "Error registering fingerprint: " ++ err
    ⟨{ pg with error := some text }, st, calls ++ [Effect.setError text]⟩
  | Settled.resolved none => ⟨pg, st, calls⟩
  | Settled.resolved (some credential) =>
    match btoa (String.fromCharCode (Uint8Array.ofBuffer credential.rawId)) with
    | none =>
      let text := lit "Error registering fingerprint: " ++ pf.btoaErrorText
      ⟨{ pg with error := some text }, st, calls ++ [Effect.setError text]⟩
    | some credentialId =>
      let item := JSON.stringify
        { username := pg.formData.username, email := pg.formData.email,
          credentialId := credentialId }
      ⟨{ pg with message := lit "Registration successful!" }, st.setItem Key.user item,
        calls ++ [Effect.setMessage (lit "Registration successful!"),
          Effect.navigateAfter (lit "/login") 1500]⟩

/-- The form handler `handleSubmit`. -/
def handleSubmit (pf : Platform) (pg : State) (st : Storage) : Run State :=
  if !pg.formData.username.truthy || !pg.formData.email.truthy
      || !pg.formData.password.truthy then
    ⟨{ pg with error := some (lit "Please fill in all fields") }, st,
      [Effect.setError (lit "Please fill in all fields")]⟩
  else registerFingerprint pf pg st

/-- The `disabled` attribute of the submit button: `!supported || error`. -/
def submitDisabled (pg : State) : Bool := !pg.supported || truthy? pg.error

/-- A submission of the form by the user: a disabled submit button blocks it, otherwise
`handleSubmit` runs. -/
def onSubmit (pf : Platform) (pg : State) (st : Storage) : Run State :=
  if submitDisabled pg then ⟨pg, st, []⟩ else handleSubmit pf pg st

end SignupPage

/-! ## `LoginPage` -/

namespace LoginPage

/-- The `formData` state of the login form. -/
structure FormData where
  email : JSString
  password : JSString
  deriving DecidableEq, Repr

/-- The state of the component: `formData`, `error` (`none` is `null`), `message`,
`supported`. -/
structure State where
  formData : FormData
  error : Option JSString
  message : JSString
  supported : Bool
  deriving DecidableEq, Repr

/-- The state at the first render (the `useState` initial values). -/
def initial : State := ⟨⟨[], []⟩, none, [], false⟩

/-- The `then` / `catch` callbacks on the promise of
`isUserVerifyingPlatformAuthenticatorAvailable()`. -/
def availabilitySettled (result : Settled Bool) (pg : State) : State :=
  match result with
  | Settled.resolved available =>
    if !available then
      { pg with error := some (lit "Fingerprint authentication is not available on this device") }
    else pg
  | Settled.rejected err =>
    { pg with error := some (lit "Error checking authenticator availability: " ++ err) }

/-- The mount effect (`useEffect(..., [])`) as far as it runs synchronously: with
`window.PublicKeyCredential` it calls `setSupported(true)` and leaves the promise of
`isUserVerifyingPlatformAuthenticatorAvailable()` pending; without it, it sets the error. -/
def useEffect (pf : Platform) (pg : State) : State :=
  if pf.publicKeyCredential then { pg with supported := true }
  else { pg with error := some (lit "WebAuthn is not supported in this browser") }

/-- The settlement of the promise the mount effect left pending, an event of its own: its
`then` / `catch` callbacks run on the state the component is in by then. Without
`window.PublicKeyCredential` there is no promise. -/
def promiseSettled (pf : Platform) (pg : State) : State :=
  if pf.publicKeyCredential then availabilitySettled pf.authenticatorAvailable pg else pg

/-- The two inputs of the form, by their `name` attribute. -/
inductive Field where
  | email
  | password
  deriving DecidableEq, Repr

/-- The handler `handleInputChange`: `setFormData(prev => ({ ...prev, [name]: value }))`. -/
def handleInputChange (name : Field) (value : JSString) (pg : State) : State :=
  match name with
  | Field.email => { pg with formData := { pg.formData with email := value } }
  | Field.password => { pg with formData := { pg.formData with password := value } }

/-- The object `getCredentialOptions`. -/
def getCredentialOptions (challenge : List Nat) : GetOptions :=
  { challenge := challenge, timeout := 60000, userVerification := lit "required" }

/-- The value `JSON.parse(localStorage.getItem('user'))`, or `none` when `JSON.parse` throws.
`JSON.parse(null)` reads the text `null`. -/
def userData (st : Storage) : Option JSON :=
  JSON.parse
    (match st.getItem Key.user with
      | some item => item
      | none => lit "null")

/-- The function `verifyFingerprint`. Everything runs inside its `try`; a throwing
`JSON.parse` or a rejected promise goes to the `catch`, which calls `setError`. -/
def verifyFingerprint (pf : Platform) (pg : State) (st : Storage) : Run State :=
  match userData st with
  | none =>
    let msg := lit "Error verifying fingerprint: " ++ pf.parseErrorText
    ⟨{ pg with error := some msg }, st, [Effect.setError msg]⟩
  | some userData =>
    if !userData.toBoolean || strictNe (userData.getProperty (lit "email")) pg.formData.email then
      ⟨{ pg with error := some (lit "User not found or incorrect email") }, st,
        [Effect.setError (lit "User not found or incorrect email")]⟩
    else
      let challenge := getRandomValues pf 32
      let options := getCredentialOptions challenge
      let calls := [Effect.getRandomValues challenge, Effect.credentialsGet options]
      match pf.get with
      | Settled.rejected err =>
        let msg := lit "Error verifying fingerprint: " ++ err
        ⟨{ pg with error := some msg }, st, calls ++ [Effect.setError msg]⟩
      | Settled.resolved none => ⟨pg, st, calls⟩
      | Settled.resolved (some _) =>
        ⟨{ pg with message := lit "Login successful!" },
          st.setItem Key.isAuthenticated (lit "true"),
          calls ++ [Effect.setMessage (lit "Login successful!"),
            Effect.navigateAfter (lit "/home") 1500]⟩

/-- The form handler `handleSubmit`. -/
def handleSubmit (pf : Platform) (pg : State) (st : Storage) : Run State :=
  if !pg.formData.email.truthy || !pg.formData.password.truthy then
    ⟨{ pg with error := some (lit "Please fill in all fields") }, st,
      [Effect.setError (lit "Please fill in all fields")]⟩
  else verifyFingerprint pf pg st

/-- The `disabled` attribute of the submit button: `!supported || error`. -/
def submitDisabled (pg : State) : Bool := !pg.supported || truthy? pg.error

/-- A submission of the form by the user: a disabled submit button blocks it, otherwise
`handleSubmit` runs. -/
def onSubmit (pf : Platform) (pg : State) (st : Storage) : Run State :=
  if submitDisabled pg then ⟨pg, st, []⟩ else handleSubmit pf pg st

end LoginPage

/-! ## `HomePage` -/

namespace HomePage

/-- Whether the protected view stays: `localStorage.getItem('isAuthenticated')` is truthy,
so the mount effect does not redirect. -/
def isAdmitted (st : Storage) : Bool := truthy? (st.getItem Key.isAuthenticated)

/-- The mount effect: `if (!localStorage.getItem('isAuthenticated')) navigate('/login')`. -/
def useEffect (st : Storage) : Run Unit :=
  if !truthy? (st.getItem Key.isAuthenticated) then ⟨(), st, [Effect.navigate (lit "/login")]⟩
  else ⟨(), st, []⟩

/-- The handler `handleLogout`. -/
def handleLogout (st : Storage) : Run Unit :=
  ⟨(), st.removeItem Key.isAuthenticated, [Effect.navigate (lit "/login")]⟩

end HomePage

/-! ## Sequences of operations -/

/-- One operation of the application on the shared `localStorage`: a submission handled by
`SignupPage.handleSubmit` or `LoginPage.handleSubmit` (on whatever state the component is
in, on whatever platform), the admission check of `HomePage`, or a logout. -/
inductive Op where
  | register (pf : Platform) (pg : SignupPage.State)
  | login (pf : Platform) (pg : LoginPage.State)
  | isAdmitted
  | logout

/-- The storage and the effects after one operation. -/
def step (st : Storage) : Op → Storage × List Effect
  | Op.register pf pg => ((SignupPage.handleSubmit pf pg st).storage,
      (SignupPage.handleSubmit pf pg st).trace)
  | Op.login pf pg => ((LoginPage.handleSubmit pf pg st).storage,
      (LoginPage.handleSubmit pf pg st).trace)
  | Op.isAdmitted => ((HomePage.useEffect st).storage, (HomePage.useEffect st).trace)
  | Op.logout => ((HomePage.handleLogout st).storage, (HomePage.handleLogout st).trace)

/-- The storage after a sequence of operations, and all their effects in order. -/
def run (st : Storage) : List Op → Storage × List Effect
  | [] => (st, [])
  | op :: ops => ((run (step st op).1 ops).1, (step st op).2 ++ (run (step st op).1 ops).2)

/-! ## Values used to state the results -/

/-- The string `registerFingerprint` stores as `credentialId`: base64 of the bytes of
`credential.rawId`. -/
def encodedRawId (credential : Credential) : JSString :=
  btoaBody (String.fromCharCode (Uint8Array.ofBuffer credential.rawId))

/-- A platform with an authenticator whose ceremonies succeed. -/
def demoPlatform : Platform :=
  { publicKeyCredential := true
    authenticatorAvailable := Settled.resolved true
    randomValues := fun i => 7 * i + 3
    hostname := lit "localhost"
    create := Settled.resolved (some ⟨[1, 2, 3]⟩)
    get := Settled.resolved (some ⟨[1, 2, 3]⟩)
    parseErrorText := lit "SyntaxError: Unexpected token"
    btoaErrorText := lit "InvalidCharacterError" }

/-- The operation `register(...)` followed immediately by `login(...)`: the sign-up
submission, then the login submission on the storage it left. -/
def registerThenLogin (pf1 pf2 : Platform) (sp : SignupPage.State) (lp : LoginPage.State)
    (st : Storage) : Run LoginPage.State :=
  LoginPage.handleSubmit pf2 lp (SignupPage.handleSubmit pf1 sp st).storage

/-- The storage after two sign-up submissions in a row. -/
def registerTwice (pf1 pf2 : Platform) (sp1 sp2 : SignupPage.State) (st : Storage) : Storage :=
  (SignupPage.handleSubmit pf2 sp2 (SignupPage.handleSubmit pf1 sp1 st).storage).storage

/-- A sign-up form filled in by Alice, on a supported platform, nothing reported yet. -/
def aliceSignup : SignupPage.State :=
  ⟨⟨lit "alice", lit "alice@x.com", lit "pw1"⟩, none, [], true⟩

/-- A sign-up form filled in by Carol. -/
def carolSignup : SignupPage.State :=
  ⟨⟨lit "carol", lit "carol@x.com", lit "pw2"⟩, none, [], true⟩

/-- A login form with Alice's email and some password. -/
def aliceLogin : LoginPage.State := ⟨⟨lit "alice@x.com", lit "anything"⟩, none, [], true⟩

/-- A login form with Carol's email and some password. -/
def carolLogin : LoginPage.State := ⟨⟨lit "carol@x.com", lit "anything"⟩, none, [], true⟩

/-- A login form with Bob's email and some password. -/
def bobLogin : LoginPage.State := ⟨⟨lit "bob@x.com", lit "pw"⟩, none, [], true⟩

/-- A login form with Bob's email and the password left empty. -/
def bobLoginNoPassword : LoginPage.State := ⟨⟨lit "bob@x.com", []⟩, none, [], true⟩

/-- A login form with Alice's email and the password left empty. -/
def aliceLoginNoPassword : LoginPage.State := ⟨⟨lit "alice@x.com", []⟩, none, [], true⟩

/-- Whether the operation is a sign-up submission that completes: the three fields are
filled in and `navigator.credentials.create` returns a credential. -/
def Op.completesRegistration : Op → Bool
  | Op.register pf pg =>
    pg.formData.username.truthy && pg.formData.email.truthy && pg.formData.password.truthy &&
      (match pf.create with
        | Settled.resolved (some _) => true
        | _ => false)
  | _ => false

/-- The sign-up component after mounting on a platform and typing the three fields, the
availability promise still pending. -/
def SignupPage.pendingForm (pf : Platform) (username email password : JSString) :
    SignupPage.State :=
  SignupPage.handleInputChange SignupPage.Field.password password
    (SignupPage.handleInputChange SignupPage.Field.email email
      (SignupPage.handleInputChange SignupPage.Field.username username
        (SignupPage.useEffect pf SignupPage.initial)))

/-- The sign-up component after mounting on a platform, the settlement of the availability
promise and typing the three fields. -/
def SignupPage.mountedForm (pf : Platform) (username email password : JSString) :
    SignupPage.State :=
  SignupPage.handleInputChange SignupPage.Field.password password
    (SignupPage.handleInputChange SignupPage.Field.email email
      (SignupPage.handleInputChange SignupPage.Field.username username
        (SignupPage.promiseSettled pf (SignupPage.useEffect pf SignupPage.initial))))

/-- The login component after mounting on a platform and typing the two fields, the
availability promise still pending. -/
def LoginPage.pendingForm (pf : Platform) (email password : JSString) : LoginPage.State :=
  LoginPage.handleInputChange LoginPage.Field.password password
    (LoginPage.handleInputChange LoginPage.Field.email email
      (LoginPage.useEffect pf LoginPage.initial))

/-- The login component after mounting on a platform, the settlement of the availability
promise and typing the two fields. -/
def LoginPage.mountedForm (pf : Platform) (email password : JSString) : LoginPage.State :=
  LoginPage.handleInputChange LoginPage.Field.password password
    (LoginPage.handleInputChange LoginPage.Field.email email
      (LoginPage.promiseSettled pf (LoginPage.useEffect pf LoginPage.initial)))

/-- Alice's sign-up form with the username left empty. -/
def noUsernameSignup : SignupPage.State :=
  ⟨⟨[], lit "alice@x.com", lit "pw1"⟩, none, [], true⟩

/-- A platform whose ceremonies time out. -/
def timeoutPlatform : Platform :=
  { demoPlatform with
    create := Settled.rejected
      (lit "NotAllowedError: The operation either timed out or was not allowed.")
    get := Settled.rejected
      (lit "NotAllowedError: The operation either timed out or was not allowed.") }

/-- A platform whose ceremonies resolve with `null`. -/
def nullPlatform : Platform :=
  { demoPlatform with create := Settled.resolved none, get := Settled.resolved none }

/-- A browser without `window.PublicKeyCredential`. -/
def noWebAuthnPlatform : Platform := { demoPlatform with publicKeyCredential := false }

/-- The storage after Alice has registered on `demoPlatform`. -/
def aliceStorage : Storage :=
  (SignupPage.handleSubmit demoPlatform aliceSignup Storage.empty).storage

/-- The creation parameters of Alice's registration on `demoPlatform`. -/
def aliceOptions : CreateOptions :=
  SignupPage.createCredentialOptions (getRandomValues demoPlatform 32) (lit "localhost")
    (lit "alice") (lit "alice@x.com")

/-- With fuel `f` the three readers consume input, and any fuel of at least the number of
code units consumed gives the same result. -/
def FuelGood (f : Nat) : Prop :=
  (∀ cs v rest, parseValue f cs = some (v, rest) →
    rest.length < cs.length ∧
      ∀ g, cs.length - rest.length ≤ g → parseValue g cs = some (v, rest)) ∧
  (∀ cs vs rest, parseElements f cs = some (vs, rest) →
    rest.length < cs.length ∧
      ∀ g, cs.length - rest.length ≤ g → parseElements g cs = some (vs, rest)) ∧
  (∀ cs ms rest, parseMembers f cs = some (ms, rest) →
    rest.length < cs.length ∧
      ∀ g, cs.length - rest.length ≤ g → parseMembers g cs = some (ms, rest))

/-- Alice's sign-up form as mounted on `timeoutPlatform`, the three fields typed. -/
def aliceMountedSignup : SignupPage.State :=
  SignupPage.mountedForm timeoutPlatform (lit "alice") (lit "alice@x.com") (lit "pw1")

/-- The first submission of that form: the creation call times out. -/
def aliceFailedSignup : Run SignupPage.State :=
  SignupPage.onSubmit timeoutPlatform aliceMountedSignup Storage.empty

/-- Alice's login form as mounted on `timeoutPlatform`, the two fields typed. -/
def aliceMountedLogin : LoginPage.State :=
  LoginPage.mountedForm timeoutPlatform (lit "alice@x.com") (lit "anything")

/-- The first submission of that form on Alice's stored record: the assertion call times
out. -/
def aliceFailedLogin : Run LoginPage.State :=
  LoginPage.onSubmit timeoutPlatform aliceMountedLogin aliceStorage

/-- A device without a user-verifying platform authenticator, in a browser with
`window.PublicKeyCredential`: the availability promise resolves with `false`; a ceremony
started anyway is completed (by another authenticator). -/
def noAuthenticatorPlatform : Platform :=
  { demoPlatform with authenticatorAvailable := Settled.resolved false }

/-- The same device, when a ceremony started anyway is refused. -/
def refusingPlatform : Platform :=
  { timeoutPlatform with authenticatorAvailable := Settled.resolved false }

/-! # Theorems -/

/-! ## Reading back what `JSON.stringify` wrote -/

theorem hexVal_hexDigit (n : Nat) (h : n < 16) : hexVal (hexDigit n) = some n := by
  interval_cases n <;> decide

theorem hex4_unicodeEscape (c : Nat) (h : c < 65536) :
    hex4 (hexDigit (c / 4096 % 16)) (hexDigit (c / 256 % 16)) (hexDigit (c / 16 % 16))
      (hexDigit (c % 16)) = some c := by
  have h1 := hexVal_hexDigit (c / 4096 % 16) (Nat.mod_lt _ (by decide))
  have h2 := hexVal_hexDigit (c / 256 % 16) (Nat.mod_lt _ (by decide))
  have h3 := hexVal_hexDigit (c / 16 % 16) (Nat.mod_lt _ (by decide))
  have h4 := hexVal_hexDigit (c % 16) (Nat.mod_lt _ (by decide))
  simp only [hex4, h1, h2, h3, h4, Option.some.injEq]
  omega


theorem parseStringBody_unicodeEscape (c : Nat) (h : c < 65536) (tail : List Nat)
    (s : JSString) (r : List Nat) (ht : parseStringBody tail = some (s, r)) :
    parseStringBody (unicodeEscape c ++ tail) = some (c :: s, r) := by
  rw [parseStringBody.eq_def]
  simp [unicodeEscape, hex4_unicodeEscape c h, ht]

theorem parseStringBody_plain (c : Nat) (h34 : c ≠ 34) (h92 : c ≠ 92) (h32 : ¬ c < 32)
    (tail : List Nat) (s : JSString) (r : List Nat) (ht : parseStringBody tail = some (s, r)) :
    parseStringBody (c :: tail) = some (c :: s, r) := by
  rw [parseStringBody.eq_def]
  simp [h34, h92, h32, ht]

theorem parseStringBody_quoteUnit (c : Nat) (tail : List Nat)
    (s : JSString) (r : List Nat) (ht : parseStringBody tail = some (s, r)) :
    parseStringBody (quoteUnit c ++ tail) = some (c :: s, r) := by
  unfold quoteUnit
  split_ifs with h8 h9 h10 h12 h13 h34 h92 hesc
  · subst h8; rw [parseStringBody.eq_def]; simp [unescape, ht]
  · subst h9; rw [parseStringBody.eq_def]; simp [unescape, ht]
  · subst h10; rw [parseStringBody.eq_def]; simp [unescape, ht]
  · subst h12; rw [parseStringBody.eq_def]; simp [unescape, ht]
  · subst h13; rw [parseStringBody.eq_def]; simp [unescape, ht]
  · subst h34; rw [parseStringBody.eq_def]; simp [unescape, ht]
  · subst h92; rw [parseStringBody.eq_def]; simp [unescape, ht]
  · exact parseStringBody_unicodeEscape c (by omega) tail s r ht
  · exact parseStringBody_plain c h34 h92 (by omega) tail s r ht

theorem parseStringBody_close (rest : List Nat) :
    parseStringBody (34 :: rest) = some ([], rest) := by
  rw [parseStringBody.eq_def]; simp

theorem parseStringBody_quoteBody_aux (n : Nat) :
    ∀ (s : JSString), s.length ≤ n → ∀ rest : List Nat,
      parseStringBody (quoteBody s ++ 34 :: rest) = some (s, rest) := by
  induction n with
  | zero =>
    intro s hs rest
    have : s = [] := List.length_eq_zero.mp (Nat.le_zero.mp hs)
    subst this
    simpa [quoteBody] using parseStringBody_close rest
  | succ n ih =>
    intro s hs rest
    match s, hs with
    | [], _ => simpa [quoteBody] using parseStringBody_close rest
    | [c], _ =>
      have hnil := parseStringBody_close rest
      by_cases hh : isHighSurrogate c = true
      · have hc : c < 65536 := by
          simp only [isHighSurrogate, decide_eq_true_eq] at hh; omega
        simpa [quoteBody, hh] using parseStringBody_unicodeEscape c hc _ _ _ hnil
      · simpa [quoteBody, hh] using parseStringBody_quoteUnit c _ _ _ hnil
    | c :: d :: t, hs =>
      have hlen1 : (d :: t).length ≤ n := by simpa using hs
      have hlen2 : t.length ≤ n := by simp at hs; omega
      by_cases hh : isHighSurrogate c = true
      · have hc : 55296 ≤ c ∧ c ≤ 56319 := by
          simpa only [isHighSurrogate, decide_eq_true_eq] using hh
        by_cases hl : isLowSurrogate d = true
        · have hd : 56320 ≤ d ∧ d ≤ 57343 := by
            simpa only [isLowSurrogate, decide_eq_true_eq] using hl
          have h2 := parseStringBody_plain d (by omega) (by omega) (by omega) _ _ _
            (ih t hlen2 rest)
          have h3 := parseStringBody_plain c (by omega) (by omega) (by omega) _ _ _ h2
          rw [quoteBody.eq_def]
          simpa [hh, hl] using h3
        · have h3 := parseStringBody_unicodeEscape c (by omega) _ _ _ (ih (d :: t) hlen1 rest)
          rw [quoteBody.eq_def]
          simpa [hh, hl] using h3
      · have h3 := parseStringBody_quoteUnit c _ _ _ (ih (d :: t) hlen1 rest)
        rw [quoteBody.eq_def]
        simpa [hh] using h3

/-- A quoted string is read back as the string it quotes, whatever follows it. -/
theorem parseStringBody_quoteBody (s : JSString) (rest : List Nat) :
    parseStringBody (quoteBody s ++ 34 :: rest) = some (s, rest) :=
  parseStringBody_quoteBody_aux s.length s (Nat.le_refl _) rest


theorem skipWS_quote (cs : List Nat) : skipWS (34 :: cs) = 34 :: cs := by
  simp [skipWS, isWS]

theorem parseValue_string (fuel : Nat) (s : JSString) (rest : List Nat) :
    parseValue (fuel + 1) (34 :: (quoteBody s ++ 34 :: rest)) = some (JSON.string s, rest) := by
  rw [parseValue]
  simp [parseStringBody_quoteBody]

theorem parseMembers_last (fuel : Nat) (key value : JSString) (rest : List Nat) :
    parseMembers (fuel + 2) (memberText key value ++ 125 :: rest)
      = some ([(key, JSON.string value)], rest) := by
  rw [parseMembers.eq_def]
  have hkey := parseStringBody_quoteBody key (58 :: 34 :: (quoteBody value ++ 34 :: 125 :: rest))
  have hval := parseValue_string fuel value (125 :: rest)
  simp [memberText, hkey, hval, skipWS, isWS]

theorem parseMembers_cons (fuel : Nat) (key value : JSString) (tail rest : List Nat)
    (ms : List (JSString × JSON))
    (ht : parseMembers (fuel + 1) (skipWS tail) = some (ms, rest)) :
    parseMembers (fuel + 2) (memberText key value ++ 44 :: tail)
      = some ((key, JSON.string value) :: ms, rest) := by
  rw [parseMembers.eq_def]
  have hkey := parseStringBody_quoteBody key (58 :: 34 :: (quoteBody value ++ 34 :: 44 :: tail))
  have hval := parseValue_string fuel value (44 :: tail)
  simp [memberText, hkey, hval, skipWS, isWS, ht]

theorem stringify_eq (r : UserRecord) :
    JSON.stringify r = 123 :: (memberText (lit "username") r.username ++ 44 ::
      (memberText (lit "email") r.email ++ 44 ::
        (memberText (lit "credentialId") r.credentialId ++ [125]))) := by
  have h1 : lit "\x7b\"username\":" = 123 :: 34 :: (quoteBody (lit "username") ++ [34, 58]) := by
    decide
  have h2 : lit ",\"email\":" = 44 :: 34 :: (quoteBody (lit "email") ++ [34, 58]) := by decide
  have h3 : lit ",\"credentialId\":" = 44 :: 34 :: (quoteBody (lit "credentialId") ++ [34, 58]) := by
    decide
  have h4 : lit "\x7d" = [125] := by decide
  simp [JSON.stringify, h1, h2, h3, h4, memberText, quoteJSONString]

theorem parseValue_object (fuel : Nat) (t : List Nat) :
    parseValue (fuel + 1) (123 :: 34 :: t) =
      match parseMembers fuel (34 :: t) with
      | some (ms, r1) => some (JSON.object ms, r1)
      | none => none := by
  rw [parseValue.eq_def]
  simp [skipWS, isWS]

theorem parseValue_stringify (fuel : Nat) (r : UserRecord) :
    parseValue (fuel + 5) (JSON.stringify r) = some (r.toJSON, []) := by
  have h3 := parseMembers_last fuel (lit "credentialId") r.credentialId []
  have h2 := parseMembers_cons (fuel + 1) (lit "email") r.email
    (memberText (lit "credentialId") r.credentialId ++ [125]) [] _
    (by rw [memberText, List.cons_append, skipWS_quote]; exact h3)
  have h1 := parseMembers_cons (fuel + 2) (lit "username") r.username
    (memberText (lit "email") r.email ++ 44 ::
      (memberText (lit "credentialId") r.credentialId ++ [125])) [] _
    (by rw [memberText, List.cons_append, skipWS_quote]; exact h2)
  rw [stringify_eq]
  simp only [memberText, List.cons_append, List.append_assoc] at h1 ⊢
  rw [parseValue_object]
  have h1b : parseMembers (fuel + 4) _ = _ := h1
  rw [h1b]
  rfl

/-- What `registerFingerprint` stores is read back by `JSON.parse` as the same three strings. -/
theorem JSON_parse_stringify (r : UserRecord) :
    JSON.parse (JSON.stringify r) = some r.toJSON := by
  have hlen : 2 ≤ (JSON.stringify r).length := by
    rw [stringify_eq]; simp [memberText]
  obtain ⟨f, hf⟩ : ∃ f, 2 * (JSON.stringify r).length + 2 = f + 5 :=
    ⟨2 * (JSON.stringify r).length - 3, by omega⟩
  have hws : skipWS (JSON.stringify r) = JSON.stringify r := by
    rw [stringify_eq]; simp [skipWS, isWS]
  unfold JSON.parse
  rw [hws, hf, parseValue_stringify]
  simp [skipWS]

theorem getProperty_email (r : UserRecord) :
    r.toJSON.getProperty (lit "email") = some (JSON.string r.email) := by
  have h1 : lit "credentialId" ≠ lit "email" := by decide
  simp [UserRecord.toJSON, JSON.getProperty, lookupLast, h1]

/-! ## The fuel of `JSON.parse` -/

theorem skipWS_length_le (cs : List Nat) : (skipWS cs).length ≤ cs.length := by
  induction cs with
  | nil => simp [skipWS]
  | cons c cs ih =>
    unfold skipWS
    split
    · simp only [List.length_cons]; omega
    · exact Nat.le_refl _

theorem parseStringBody_length_aux (n : Nat) :
    ∀ (cs : List Nat) (s : JSString) (r : List Nat), cs.length ≤ n →
      parseStringBody cs = some (s, r) → r.length < cs.length := by
  induction n with
  | zero =>
    intro cs s r hn h
    have : cs = [] := List.length_eq_zero.mp (Nat.le_zero.mp hn)
    subst this
    rw [parseStringBody.eq_def] at h
    cases h
  | succ n ih =>
    intro cs s r hn h
    rw [parseStringBody.eq_def] at h
    split at h
    · cases h
    · rename_i c rest
      simp only [List.length_cons] at hn ⊢
      split at h
      · cases h; omega
      · split at h
        · split at h
          · cases h
          · rename_i e rest1
            simp only [List.length_cons] at hn ⊢
            split at h
            · split at h
              · rename_i h1 h2 h3 h4 rest2
                simp only [List.length_cons] at hn ⊢
                split at h
                · rename_i u s1 r1 _ hr
                  cases h
                  have := ih rest2 _ _ (by omega) hr
                  omega
                · cases h
              · cases h
            · split at h
              · rename_i u s1 r1 _ hr
                cases h
                have := ih rest1 _ _ (by omega) hr
                omega
              · cases h
        · split at h
          · cases h
          · split at h
            · rename_i s1 r1 hr
              cases h
              have := ih rest _ _ (by omega) hr
              omega
            · cases h

theorem parseStringBody_length (cs : List Nat) (s : JSString) (r : List Nat)
    (h : parseStringBody cs = some (s, r)) : r.length < cs.length :=
  parseStringBody_length_aux cs.length cs s r (Nat.le_refl _) h

theorem dropLit_length (xs : List Nat) :
    ∀ (cs r : List Nat), dropLit xs cs = some r → r.length ≤ cs.length := by
  induction xs with
  | nil => intro cs r h; simp [dropLit] at h; subst h; exact Nat.le_refl _
  | cons x xs ih =>
    intro cs r h
    cases cs with
    | nil => simp [dropLit] at h
    | cons c cs =>
      simp only [dropLit] at h
      split at h
      · have := ih cs r h; simp only [List.length_cons]; omega
      · cases h

theorem takeDigits_length (cs : List Nat) : (takeDigits cs).2.length ≤ cs.length := by
  induction cs with
  | nil => simp [takeDigits]
  | cons c cs ih =>
    unfold takeDigits
    split
    · simp only [List.length_cons]; omega
    · exact Nat.le_refl _

theorem parseInt_length (cs ds r : List Nat) (h : parseInt cs = some (ds, r)) :
    r.length < cs.length := by
  cases cs with
  | nil => simp [parseInt] at h
  | cons c cs =>
    simp only [parseInt] at h
    split at h
    · cases h; simp
    · split at h
      · cases h
        have := takeDigits_length cs
        simp only [List.length_cons]; omega
      · cases h

theorem parseFrac_length (cs fs r : List Nat) (h : parseFrac cs = some (fs, r)) :
    r.length ≤ cs.length := by
  unfold parseFrac at h
  split at h
  · rename_i cs1
    split at h
    · cases h
    · simp only [Option.some.injEq] at h
      have hr : r = (takeDigits cs1).2 := by rw [h]
      have := takeDigits_length cs1
      simp only [List.length_cons, hr]; omega
  · cases h; exact Nat.le_refl _

theorem parseExp_length (cs : List Nat) (e : Int) (r : List Nat)
    (h : parseExp cs = some (e, r)) : r.length ≤ cs.length := by
  cases cs with
  | nil => simp [parseExp] at h; rw [h.2]
  | cons c cs =>
    simp only [parseExp] at h
    split at h
    · split at h
      · cases h
      · rename_i s cs1
        have h1 := takeDigits_length cs1
        have h2 := takeDigits_length (s :: cs1)
        simp only [List.length_cons] at h2 ⊢
        split at h
        · split at h
          · cases h
          · cases h; omega
        · split at h
          · split at h
            · cases h
            · cases h; omega
          · split at h
            · cases h
            · cases h; omega
    · cases h; exact Nat.le_refl _

theorem parseNumber_length (cs : List Nat) (v : JSON) (r : List Nat)
    (h : parseNumber cs = some (v, r)) : r.length < cs.length := by
  unfold parseNumber at h
  simp only at h
  split at h
  · cases h
  · rename_i ds cs1 hint
    split at h
    · cases h
    · rename_i fs cs2 hfrac
      split at h
      · cases h
      · rename_i e cs3 hexp
        cases h
        have h1 := parseInt_length _ _ _ hint
        have h2 := parseFrac_length _ _ _ hfrac
        have h3 := parseExp_length _ _ _ hexp
        have h0 : (if (decide (cs.head? = some 45)) = true then cs.tail else cs).length
            ≤ cs.length := by
          split
          · simp
          · exact Nat.le_refl _
        omega


theorem fuelGood_value (f : Nat) (ih : FuelGood f) :
    ∀ cs v rest, parseValue (f + 1) cs = some (v, rest) →
      rest.length < cs.length ∧
        ∀ g, cs.length - rest.length ≤ g → parseValue g cs = some (v, rest) := by
  intro cs v rest h
  rw [parseValue.eq_def] at h
  simp only at h
  split at h
  · cases h
  · rename_i c rest0
    simp only [List.length_cons]
    split at h
    · -- string
      rename_i hc
      split at h
      · rename_i s r hs
        cases h
        have hlen := parseStringBody_length _ _ _ hs
        refine ⟨by omega, fun g hg => ?_⟩
        obtain ⟨g1, rfl⟩ : ∃ g1, g = g1 + 1 := ⟨g - 1, by omega⟩
        rw [parseValue.eq_def]
        simp [hc, hs]
      · cases h
    · rename_i hc
      split at h
      · -- array
        rename_i hc1
        have hws := skipWS_length_le rest0
        split at h
        · cases h
        · rename_i d r hskip
          rw [hskip] at hws
          simp only [List.length_cons] at hws
          split at h
          · rename_i hd
            cases h
            refine ⟨by omega, fun g hg => ?_⟩
            obtain ⟨g1, rfl⟩ : ∃ g1, g = g1 + 1 := ⟨g - 1, by omega⟩
            rw [parseValue.eq_def]
            simp [hc, hc1, hskip, hd]
          · rename_i hd
            split at h
            · rename_i vs r1 he
              cases h
              obtain ⟨hl, hg1⟩ := ih.2.1 _ _ _ he
              simp only [List.length_cons] at hl hg1
              refine ⟨by omega, fun g hg => ?_⟩
              obtain ⟨g1, rfl⟩ : ∃ g1, g = g1 + 1 := ⟨g - 1, by omega⟩
              rw [parseValue.eq_def]
              simp [hc, hc1, hskip, hd, hg1 g1 (by omega)]
            · cases h
      · rename_i hc1
        split at h
        · -- object
          rename_i hc2
          have hws := skipWS_length_le rest0
          split at h
          · cases h
          · rename_i d r hskip
            rw [hskip] at hws
            simp only [List.length_cons] at hws
            split at h
            · rename_i hd
              cases h
              refine ⟨by omega, fun g hg => ?_⟩
              obtain ⟨g1, rfl⟩ : ∃ g1, g = g1 + 1 := ⟨g - 1, by omega⟩
              rw [parseValue.eq_def]
              simp [hc, hc1, hc2, hskip, hd]
            · rename_i hd
              split at h
              · rename_i ms r1 he
                cases h
                obtain ⟨hl, hg1⟩ := ih.2.2 _ _ _ he
                simp only [List.length_cons] at hl hg1
                refine ⟨by omega, fun g hg => ?_⟩
                obtain ⟨g1, rfl⟩ : ∃ g1, g = g1 + 1 := ⟨g - 1, by omega⟩
                rw [parseValue.eq_def]
                simp [hc, hc1, hc2, hskip, hd, hg1 g1 (by omega)]
              · cases h
        · rename_i hc2
          split at h
          · -- null
            rename_i hc3
            split at h
            · rename_i r hd
              cases h
              have hl := dropLit_length _ _ _ hd
              refine ⟨by omega, fun g hg => ?_⟩
              obtain ⟨g1, rfl⟩ : ∃ g1, g = g1 + 1 := ⟨g - 1, by omega⟩
              rw [parseValue.eq_def]
              simp [hc, hc1, hc2, hc3, hd]
            · cases h
          · rename_i hc3
            split at h
            · -- true
              rename_i hc4
              split at h
              · rename_i r hd
                cases h
                have hl := dropLit_length _ _ _ hd
                refine ⟨by omega, fun g hg => ?_⟩
                obtain ⟨g1, rfl⟩ : ∃ g1, g = g1 + 1 := ⟨g - 1, by omega⟩
                rw [parseValue.eq_def]
                simp [hc, hc1, hc2, hc3, hc4, hd]
              · cases h
            · rename_i hc4
              split at h
              · -- false
                rename_i hc5
                split at h
                · rename_i r hd
                  cases h
                  have hl := dropLit_length _ _ _ hd
                  refine ⟨by omega, fun g hg => ?_⟩
                  obtain ⟨g1, rfl⟩ : ∃ g1, g = g1 + 1 := ⟨g - 1, by omega⟩
                  rw [parseValue.eq_def]
                  simp [hc, hc1, hc2, hc3, hc4, hc5, hd]
                · cases h
              · -- number
                rename_i hc5
                have hl := parseNumber_length _ _ _ h
                simp only [List.length_cons] at hl
                refine ⟨by omega, fun g hg => ?_⟩
                obtain ⟨g1, rfl⟩ : ∃ g1, g = g1 + 1 := ⟨g - 1, by omega⟩
                rw [parseValue.eq_def]
                simp [hc, hc1, hc2, hc3, hc4, hc5, h]

theorem fuelGood_elements (f : Nat) (ih : FuelGood f) :
    ∀ cs vs rest, parseElements (f + 1) cs = some (vs, rest) →
      rest.length < cs.length ∧
        ∀ g, cs.length - rest.length ≤ g → parseElements g cs = some (vs, rest) := by
  intro cs vs rest h
  rw [parseElements.eq_def] at h
  simp only at h
  split at h
  · cases h
  · rename_i v rest0 hv
    obtain ⟨hl0, hg0⟩ := ih.1 _ _ _ hv
    have hws := skipWS_length_le rest0
    split at h
    · cases h
    · rename_i d r hskip
      rw [hskip] at hws
      simp only [List.length_cons] at hws
      split at h
      · rename_i hd
        have hws2 := skipWS_length_le r
        split at h
        · rename_i vs1 r1 he
          cases h
          obtain ⟨hl1, hg1⟩ := ih.2.1 _ _ _ he
          refine ⟨by omega, fun g hg => ?_⟩
          obtain ⟨g1, rfl⟩ : ∃ g1, g = g1 + 1 := ⟨g - 1, by omega⟩
          rw [parseElements.eq_def]
          simp [hg0 g1 (by omega), hskip, hd, hg1 g1 (by omega)]
        · cases h
      · rename_i hd
        split at h
        · rename_i hd2
          cases h
          refine ⟨by omega, fun g hg => ?_⟩
          obtain ⟨g1, rfl⟩ : ∃ g1, g = g1 + 1 := ⟨g - 1, by omega⟩
          rw [parseElements.eq_def]
          simp [hg0 g1 (by omega), hskip, hd, hd2]
        · cases h

theorem fuelGood_members (f : Nat) (ih : FuelGood f) :
    ∀ cs ms rest, parseMembers (f + 1) cs = some (ms, rest) →
      rest.length < cs.length ∧
        ∀ g, cs.length - rest.length ≤ g → parseMembers g cs = some (ms, rest) := by
  intro cs ms rest h
  rw [parseMembers.eq_def] at h
  simp only at h
  split at h
  · cases h
  · rename_i q cs1
    simp only [List.length_cons]
    split at h
    · rename_i hq
      split at h
      · cases h
      · rename_i key cs2 hkey
        have hlk := parseStringBody_length _ _ _ hkey
        have hws := skipWS_length_le cs2
        split at h
        · cases h
        · rename_i colon cs3 hskip
          rw [hskip] at hws
          simp only [List.length_cons] at hws
          split at h
          · rename_i hcolon
            have hws3 := skipWS_length_le cs3
            split at h
            · cases h
            · rename_i v rest0 hv
              obtain ⟨hl0, hg0⟩ := ih.1 _ _ _ hv
              have hws0 := skipWS_length_le rest0
              split at h
              · cases h
              · rename_i d r hskip0
                rw [hskip0] at hws0
                simp only [List.length_cons] at hws0
                split at h
                · rename_i hd
                  have hws2 := skipWS_length_le r
                  split at h
                  · rename_i ms1 r1 he
                    cases h
                    obtain ⟨hl1, hg1⟩ := ih.2.2 _ _ _ he
                    refine ⟨by omega, fun g hg => ?_⟩
                    obtain ⟨g1, rfl⟩ : ∃ g1, g = g1 + 1 := ⟨g - 1, by omega⟩
                    rw [parseMembers.eq_def]
                    simp [hq, hkey, hskip, hcolon, hg0 g1 (by omega), hskip0, hd,
                      hg1 g1 (by omega)]
                  · cases h
                · rename_i hd
                  split at h
                  · rename_i hd2
                    cases h
                    refine ⟨by omega, fun g hg => ?_⟩
                    obtain ⟨g1, rfl⟩ : ∃ g1, g = g1 + 1 := ⟨g - 1, by omega⟩
                    rw [parseMembers.eq_def]
                    simp [hq, hkey, hskip, hcolon, hg0 g1 (by omega), hskip0, hd, hd2]
                  · cases h
          · cases h
    · cases h

theorem fuelGood (f : Nat) : FuelGood f := by
  induction f with
  | zero =>
    refine ⟨?_, ?_, ?_⟩ <;> intro cs v rest h
    · rw [parseValue.eq_def] at h; cases h
    · rw [parseElements.eq_def] at h; cases h
    · rw [parseMembers.eq_def] at h; cases h
  | succ f ih => exact ⟨fuelGood_value f ih, fuelGood_elements f ih, fuelGood_members f ih⟩

/-- The fuel `JSON.parse` supplies is enough: a text that some amount of fuel reads is read
with the same result by `JSON.parse`, so `JSON.parse` answers `none` only for a text that
is not JSON. -/
theorem JSON_parse_fuel (text : JSString) (f : Nat) (v : JSON) (rest : List Nat)
    (h : parseValue f (skipWS text) = some (v, rest)) :
    parseValue (2 * text.length + 2) (skipWS text) = some (v, rest) := by
  obtain ⟨hl, hg⟩ := (fuelGood f).1 _ _ _ h
  have := skipWS_length_le text
  exact hg _ (by omega)

/-! ## The handlers case by case -/

theorem btoa_ofBuffer (bytes : List Nat) :
    btoa (String.fromCharCode (Uint8Array.ofBuffer bytes))
      = some (btoaBody (String.fromCharCode (Uint8Array.ofBuffer bytes))) := by
  have hall : (String.fromCharCode (Uint8Array.ofBuffer bytes)).all
      (fun c => decide (c < 256)) = true := by
    simp only [String.fromCharCode, Uint8Array.ofBuffer, List.all_eq_true, List.mem_map,
      decide_eq_true_eq]
    rintro c ⟨u, ⟨b, _, rfl⟩, rfl⟩
    omega
  simp [btoa, hall]

theorem truthy_iff (s : JSString) : s.truthy = true ↔ s ≠ [] := by
  cases s <;> simp [JSString.truthy]

theorem signup_handleSubmit_empty (pf : Platform) (pg : SignupPage.State) (st : Storage)
    (h : pg.formData.username = [] ∨ pg.formData.email = [] ∨ pg.formData.password = []) :
    SignupPage.handleSubmit pf pg st =
      ⟨{ pg with error := some (lit "Please fill in all fields") }, st,
        [Effect.setError (lit "Please fill in all fields")]⟩ := by
  unfold SignupPage.handleSubmit
  rcases h with h | h | h <;> simp [h, JSString.truthy]

theorem signup_handleSubmit_filled (pf : Platform) (pg : SignupPage.State) (st : Storage)
    (hu : pg.formData.username ≠ []) (he : pg.formData.email ≠ [])
    (hp : pg.formData.password ≠ []) :
    SignupPage.handleSubmit pf pg st = SignupPage.registerFingerprint pf pg st := by
  unfold SignupPage.handleSubmit
  simp [(truthy_iff _).mpr hu, (truthy_iff _).mpr he, (truthy_iff _).mpr hp]

theorem registerFingerprint_credential (pf : Platform) (pg : SignupPage.State) (st : Storage)
    (credential : Credential) (h : pf.create = Settled.resolved (some credential)) :
    SignupPage.registerFingerprint pf pg st =
      ⟨{ pg with message := lit "Registration successful!" },
        st.setItem Key.user (JSON.stringify
          { username := pg.formData.username, email := pg.formData.email,
            credentialId := encodedRawId credential }),
        [Effect.getRandomValues (getRandomValues pf 32),
          Effect.credentialsCreate (SignupPage.createCredentialOptions (getRandomValues pf 32) pf.hostname
            pg.formData.username pg.formData.email),
          Effect.setMessage (lit "Registration successful!"),
          Effect.navigateAfter (lit "/login") 1500]⟩ := by
  simp [SignupPage.registerFingerprint, h, btoa_ofBuffer, encodedRawId]

theorem registerFingerprint_null (pf : Platform) (pg : SignupPage.State) (st : Storage)
    (h : pf.create = Settled.resolved none) :
    SignupPage.registerFingerprint pf pg st =
      ⟨pg, st, [Effect.getRandomValues (getRandomValues pf 32),
          Effect.credentialsCreate (SignupPage.createCredentialOptions (getRandomValues pf 32) pf.hostname
            pg.formData.username pg.formData.email)]⟩ := by
  simp [SignupPage.registerFingerprint, h]

theorem registerFingerprint_rejected (pf : Platform) (pg : SignupPage.State) (st : Storage)
    (reason : JSString) (h : pf.create = Settled.rejected reason) :
    SignupPage.registerFingerprint pf pg st =
      ⟨{ pg with error := some (lit "Error registering fingerprint: " ++ reason) }, st,
        [Effect.getRandomValues (getRandomValues pf 32),
          Effect.credentialsCreate (SignupPage.createCredentialOptions (getRandomValues pf 32) pf.hostname
            pg.formData.username pg.formData.email),
          Effect.setError (lit "Error registering fingerprint: " ++ reason)]⟩ := by
  simp [SignupPage.registerFingerprint, h]

theorem login_handleSubmit_empty (pf : Platform) (pg : LoginPage.State) (st : Storage)
    (h : pg.formData.email = [] ∨ pg.formData.password = []) :
    LoginPage.handleSubmit pf pg st =
      ⟨{ pg with error := some (lit "Please fill in all fields") }, st,
        [Effect.setError (lit "Please fill in all fields")]⟩ := by
  unfold LoginPage.handleSubmit
  rcases h with h | h <;> simp [h, JSString.truthy]

theorem login_handleSubmit_filled (pf : Platform) (pg : LoginPage.State) (st : Storage)
    (he : pg.formData.email ≠ []) (hp : pg.formData.password ≠ []) :
    LoginPage.handleSubmit pf pg st = LoginPage.verifyFingerprint pf pg st := by
  unfold LoginPage.handleSubmit
  simp [(truthy_iff _).mpr he, (truthy_iff _).mpr hp]

theorem userData_absent (st : Storage) (h : st.getItem Key.user = none) :
    LoginPage.userData st = some JSON.null := by
  unfold LoginPage.userData
  rw [h]
  rfl

theorem userData_stored (st : Storage) (r : UserRecord)
    (h : st.getItem Key.user = some (JSON.stringify r)) : LoginPage.userData st = some r.toJSON := by
  unfold LoginPage.userData
  rw [h]
  exact JSON_parse_stringify r

theorem strictNe_eq_false (v : Option JSON) (s : JSString) :
    strictNe v s = false ↔ v = some (JSON.string s) := by
  cases v with
  | none => simp [strictNe]
  | some w => cases w <;> simp [strictNe]

theorem verifyFingerprint_throws (pf : Platform) (pg : LoginPage.State) (st : Storage)
    (h : LoginPage.userData st = none) :
    LoginPage.verifyFingerprint pf pg st =
      ⟨{ pg with error := some (lit "Error verifying fingerprint: " ++ pf.parseErrorText) }, st,
        [Effect.setError (lit "Error verifying fingerprint: " ++ pf.parseErrorText)]⟩ := by
  simp [LoginPage.verifyFingerprint, h]

theorem verifyFingerprint_unknown (pf : Platform) (pg : LoginPage.State) (st : Storage) (v : JSON)
    (h : LoginPage.userData st = some v)
    (hne : v.getProperty (lit "email") ≠ some (JSON.string pg.formData.email)) :
    LoginPage.verifyFingerprint pf pg st =
      ⟨{ pg with error := some (lit "User not found or incorrect email") }, st,
        [Effect.setError (lit "User not found or incorrect email")]⟩ := by
  have hs : strictNe (v.getProperty (lit "email")) pg.formData.email = true := by
    cases hb : strictNe (v.getProperty (lit "email")) pg.formData.email
    · exact absurd ((strictNe_eq_false _ _).mp hb) hne
    · rfl
  simp [LoginPage.verifyFingerprint, h, hs]

theorem verifyFingerprint_absent (pf : Platform) (pg : LoginPage.State) (st : Storage)
    (h : st.getItem Key.user = none) :
    LoginPage.verifyFingerprint pf pg st =
      ⟨{ pg with error := some (lit "User not found or incorrect email") }, st,
        [Effect.setError (lit "User not found or incorrect email")]⟩ :=
  verifyFingerprint_unknown pf pg st JSON.null (userData_absent st h)
    (by simp [JSON.getProperty])

theorem toBoolean_of_getProperty (v : JSON) (key : JSString) (w : JSON)
    (h : v.getProperty key = some w) : v.toBoolean = true := by
  cases v <;> simp [JSON.getProperty] at h
  rfl

theorem verifyFingerprint_assertion (pf : Platform) (pg : LoginPage.State) (st : Storage) (v : JSON)
    (assertion : Credential) (h : LoginPage.userData st = some v)
    (heq : v.getProperty (lit "email") = some (JSON.string pg.formData.email))
    (hget : pf.get = Settled.resolved (some assertion)) :
    LoginPage.verifyFingerprint pf pg st =
      ⟨{ pg with message := lit "Login successful!" },
        st.setItem Key.isAuthenticated (lit "true"),
        [Effect.getRandomValues (getRandomValues pf 32),
          Effect.credentialsGet (LoginPage.getCredentialOptions (getRandomValues pf 32)),
          Effect.setMessage (lit "Login successful!"),
          Effect.navigateAfter (lit "/home") 1500]⟩ := by
  have hs := (strictNe_eq_false _ _).mpr heq
  have hb := toBoolean_of_getProperty v _ _ heq
  simp [LoginPage.verifyFingerprint, h, hs, hb, hget]

theorem verifyFingerprint_null (pf : Platform) (pg : LoginPage.State) (st : Storage) (v : JSON)
    (h : LoginPage.userData st = some v)
    (heq : v.getProperty (lit "email") = some (JSON.string pg.formData.email))
    (hget : pf.get = Settled.resolved none) :
    LoginPage.verifyFingerprint pf pg st =
      ⟨pg, st, [Effect.getRandomValues (getRandomValues pf 32),
          Effect.credentialsGet (LoginPage.getCredentialOptions (getRandomValues pf 32))]⟩ := by
  have hs := (strictNe_eq_false _ _).mpr heq
  have hb := toBoolean_of_getProperty v _ _ heq
  simp [LoginPage.verifyFingerprint, h, hs, hb, hget]

theorem verifyFingerprint_rejected (pf : Platform) (pg : LoginPage.State) (st : Storage) (v : JSON)
    (reason : JSString) (h : LoginPage.userData st = some v)
    (heq : v.getProperty (lit "email") = some (JSON.string pg.formData.email))
    (hget : pf.get = Settled.rejected reason) :
    LoginPage.verifyFingerprint pf pg st =
      ⟨{ pg with error := some (lit "Error verifying fingerprint: " ++ reason) }, st,
        [Effect.getRandomValues (getRandomValues pf 32),
          Effect.credentialsGet (LoginPage.getCredentialOptions (getRandomValues pf 32)),
          Effect.setError (lit "Error verifying fingerprint: " ++ reason)]⟩ := by
  have hs := (strictNe_eq_false _ _).mpr heq
  have hb := toBoolean_of_getProperty v _ _ heq
  simp [LoginPage.verifyFingerprint, h, hs, hb, hget]

/-! ## Registration followed by login -/

theorem getItem_user_setItem_user (st : Storage) (item : JSString) :
    (st.setItem Key.user item).getItem Key.user = some item := rfl

theorem signup_storage_credential (pf : Platform) (sp : SignupPage.State) (st : Storage)
    (credential : Credential)
    (hu : sp.formData.username ≠ []) (he : sp.formData.email ≠ [])
    (hp : sp.formData.password ≠ [])
    (hcreate : pf.create = Settled.resolved (some credential)) :
    (SignupPage.handleSubmit pf sp st).storage =
      st.setItem Key.user (JSON.stringify
        { username := sp.formData.username, email := sp.formData.email,
          credentialId := encodedRawId credential }) := by
  rw [signup_handleSubmit_filled pf sp st hu he hp,
    registerFingerprint_credential pf sp st credential hcreate]

theorem login_after_record (pf : Platform) (lp : LoginPage.State) (st : Storage)
    (r : UserRecord) (assertion : Credential)
    (hitem : st.getItem Key.user = some (JSON.stringify r))
    (hemail : lp.formData.email = r.email) (he : r.email ≠ [])
    (hpw : lp.formData.password ≠ [])
    (hget : pf.get = Settled.resolved (some assertion)) :
    LoginPage.handleSubmit pf lp st =
      ⟨{ lp with message := lit "Login successful!" },
        st.setItem Key.isAuthenticated (lit "true"),
        [Effect.getRandomValues (getRandomValues pf 32),
          Effect.credentialsGet (LoginPage.getCredentialOptions (getRandomValues pf 32)),
          Effect.setMessage (lit "Login successful!"),
          Effect.navigateAfter (lit "/home") 1500]⟩ := by
  rw [login_handleSubmit_filled pf lp st (by rw [hemail]; exact he) hpw]
  exact verifyFingerprint_assertion pf lp st r.toJSON assertion (userData_stored st r hitem)
    (by rw [hemail]; exact getProperty_email r) hget

theorem login_other_record (pf : Platform) (lp : LoginPage.State) (st : Storage)
    (r : UserRecord) (hitem : st.getItem Key.user = some (JSON.stringify r))
    (hemail : lp.formData.email ≠ r.email) (he : lp.formData.email ≠ [])
    (hpw : lp.formData.password ≠ []) :
    LoginPage.handleSubmit pf lp st =
      ⟨{ lp with error := some (lit "User not found or incorrect email") }, st,
        [Effect.setError (lit "User not found or incorrect email")]⟩ := by
  rw [login_handleSubmit_filled pf lp st he hpw]
  refine verifyFingerprint_unknown pf lp st r.toJSON (userData_stored st r hitem) ?_
  rw [getProperty_email]
  intro h
  injection h with h
  injection h with h
  exact hemail h.symm

/-- C1: for non-empty username, email and password and any storage, when
`navigator.credentials.create` returns a credential the sign-up submission stores a record
that `JSON.parse` reads back with the registered email, and a login submission with that
email, any non-empty password and `navigator.credentials.get` returning an assertion
reports `Login successful!`, reports no error, sets `isAuthenticated` to `true` and so
makes the home page admit. -/
theorem register_then_login_admits (pf1 pf2 : Platform) (sp : SignupPage.State)
    (lp : LoginPage.State) (st : Storage) (credential assertion : Credential)
    (hu : sp.formData.username ≠ []) (he : sp.formData.email ≠ [])
    (hp : sp.formData.password ≠ [])
    (hcreate : pf1.create = Settled.resolved (some credential))
    (hemail : lp.formData.email = sp.formData.email) (hpw : lp.formData.password ≠ [])
    (hget : pf2.get = Settled.resolved (some assertion)) :
    (SignupPage.handleSubmit pf1 sp st).page.message = lit "Registration successful!" ∧
    (∃ v, LoginPage.userData (SignupPage.handleSubmit pf1 sp st).storage = some v ∧
      v.getProperty (lit "email") = some (JSON.string sp.formData.email)) ∧
    (registerThenLogin pf1 pf2 sp lp st).page.message = lit "Login successful!" ∧
    Effect.setMessage (lit "Login successful!") ∈ (registerThenLogin pf1 pf2 sp lp st).trace ∧
    (∀ text, Effect.setError text ∉ (registerThenLogin pf1 pf2 sp lp st).trace) ∧
    (registerThenLogin pf1 pf2 sp lp st).storage.getItem Key.isAuthenticated
      = some (lit "true") ∧
    HomePage.isAdmitted (registerThenLogin pf1 pf2 sp lp st).storage = true := by
  have hst := signup_storage_credential pf1 sp st credential hu he hp hcreate
  have hlogin := login_after_record pf2 lp (SignupPage.handleSubmit pf1 sp st).storage
    { username := sp.formData.username, email := sp.formData.email,
      credentialId := encodedRawId credential } assertion
    (by rw [hst]; rfl) hemail he hpw hget
  refine ⟨?_, ?_, ?_, ?_, ?_, ?_, ?_⟩
  · rw [signup_handleSubmit_filled pf1 sp st hu he hp,
      registerFingerprint_credential pf1 sp st credential hcreate]
  · exact ⟨_, userData_stored _ _ (by rw [hst]; rfl), getProperty_email _⟩
  · rw [registerThenLogin, hlogin]
  · rw [registerThenLogin, hlogin]; simp
  · intro text; rw [registerThenLogin, hlogin]; simp
  · rw [registerThenLogin, hlogin]; rfl
  · rw [registerThenLogin, hlogin]; rfl

/-- C1, Scenario A: Alice registers and logs in. -/
theorem register_then_login_admits_witness :
    (aliceSignup.formData.username ≠ [] ∧ aliceSignup.formData.email ≠ [] ∧
      aliceSignup.formData.password ≠ [] ∧
      demoPlatform.create = Settled.resolved (some ⟨[1, 2, 3]⟩) ∧
      aliceLogin.formData.email = aliceSignup.formData.email ∧
      aliceLogin.formData.password ≠ [] ∧
      demoPlatform.get = Settled.resolved (some ⟨[1, 2, 3]⟩)) ∧
    ((SignupPage.handleSubmit demoPlatform aliceSignup Storage.empty).page.message
        = lit "Registration successful!" ∧
      (∃ v, LoginPage.userData (SignupPage.handleSubmit demoPlatform aliceSignup
          Storage.empty).storage = some v ∧
        v.getProperty (lit "email") = some (JSON.string aliceSignup.formData.email)) ∧
      (registerThenLogin demoPlatform demoPlatform aliceSignup aliceLogin Storage.empty
        ).page.message = lit "Login successful!" ∧
      Effect.setMessage (lit "Login successful!") ∈ (registerThenLogin demoPlatform
        demoPlatform aliceSignup aliceLogin Storage.empty).trace ∧
      (∀ text, Effect.setError text ∉ (registerThenLogin demoPlatform demoPlatform
        aliceSignup aliceLogin Storage.empty).trace) ∧
      (registerThenLogin demoPlatform demoPlatform aliceSignup aliceLogin Storage.empty
        ).storage.getItem Key.isAuthenticated = some (lit "true") ∧
      HomePage.isAdmitted (registerThenLogin demoPlatform demoPlatform aliceSignup aliceLogin
        Storage.empty).storage = true) :=
  ⟨⟨by decide, by decide, by decide, rfl, by decide, by decide, rfl⟩,
    register_then_login_admits demoPlatform demoPlatform aliceSignup aliceLogin Storage.empty
      ⟨[1, 2, 3]⟩ ⟨[1, 2, 3]⟩ (by decide) (by decide) (by decide) rfl (by decide) (by decide)
      rfl⟩

/-! ## Login without a matching record -/

/-- C2 as stated fails: with an empty storage, Bob's email and an empty password the login
submission reports `Please fill in all fields`, not `User not found or incorrect email`. -/
theorem login_empty_password_not_unknown_identity :
    Storage.empty.getItem Key.user = none ∧
    (LoginPage.handleSubmit demoPlatform bobLoginNoPassword Storage.empty).page.error
      = some (lit "Please fill in all fields") ∧
    (LoginPage.handleSubmit demoPlatform bobLoginNoPassword Storage.empty).page.error
      ≠ some (lit "User not found or incorrect email") := by
  decide

/-- C2, amended: when the stored record is absent, or is read by `JSON.parse` as a value
whose `email` is not the submitted string, a login submission with a non-empty email and a
non-empty password reports `User not found or incorrect email` and nothing else, calls
neither `crypto.getRandomValues` nor `navigator.credentials.get`, and leaves the storage,
hence the admission check, as it was; from an empty storage the home page does not admit. -/
theorem login_unknown_identity (pf : Platform) (lp : LoginPage.State) (st : Storage)
    (he : lp.formData.email ≠ []) (hpw : lp.formData.password ≠ [])
    (hrec : st.getItem Key.user = none ∨
      ∃ v, LoginPage.userData st = some v ∧
        v.getProperty (lit "email") ≠ some (JSON.string lp.formData.email)) :
    (LoginPage.handleSubmit pf lp st).page.error
      = some (lit "User not found or incorrect email") ∧
    (LoginPage.handleSubmit pf lp st).trace
      = [Effect.setError (lit "User not found or incorrect email")] ∧
    (∀ options, Effect.credentialsGet options ∉ (LoginPage.handleSubmit pf lp st).trace) ∧
    (LoginPage.handleSubmit pf lp st).storage = st ∧
    HomePage.isAdmitted (LoginPage.handleSubmit pf lp st).storage = HomePage.isAdmitted st ∧
    (st = Storage.empty →
      HomePage.isAdmitted (LoginPage.handleSubmit pf lp st).storage = false) := by
  have hrun : LoginPage.handleSubmit pf lp st =
      ⟨{ lp with error := some (lit "User not found or incorrect email") }, st,
        [Effect.setError (lit "User not found or incorrect email")]⟩ := by
    rw [login_handleSubmit_filled pf lp st he hpw]
    rcases hrec with habsent | ⟨v, hv, hne⟩
    · exact verifyFingerprint_absent pf lp st habsent
    · exact verifyFingerprint_unknown pf lp st v hv hne
  rw [hrun]
  refine ⟨rfl, rfl, ?_, rfl, rfl, ?_⟩
  · intro options; simp
  · intro hst; rw [hst]; rfl

/-- C2, Scenario B: Bob logs in with no prior registration. -/
theorem login_unknown_identity_witness :
    (bobLogin.formData.email ≠ [] ∧ bobLogin.formData.password ≠ [] ∧
      (Storage.empty.getItem Key.user = none ∨
        ∃ v, LoginPage.userData Storage.empty = some v ∧
          v.getProperty (lit "email") ≠ some (JSON.string bobLogin.formData.email))) ∧
    ((LoginPage.handleSubmit demoPlatform bobLogin Storage.empty).page.error
        = some (lit "User not found or incorrect email") ∧
      (LoginPage.handleSubmit demoPlatform bobLogin Storage.empty).trace
        = [Effect.setError (lit "User not found or incorrect email")] ∧
      (∀ options, Effect.credentialsGet options ∉
        (LoginPage.handleSubmit demoPlatform bobLogin Storage.empty).trace) ∧
      (LoginPage.handleSubmit demoPlatform bobLogin Storage.empty).storage = Storage.empty ∧
      HomePage.isAdmitted (LoginPage.handleSubmit demoPlatform bobLogin Storage.empty).storage
        = HomePage.isAdmitted Storage.empty ∧
      (Storage.empty = Storage.empty →
        HomePage.isAdmitted (LoginPage.handleSubmit demoPlatform bobLogin Storage.empty).storage
          = false)) :=
  ⟨⟨by decide, by decide, Or.inl rfl⟩,
    login_unknown_identity demoPlatform bobLogin Storage.empty (by decide) (by decide)
      (Or.inl rfl)⟩

/-- The outcome of a login submission does not depend on which non-empty password is
typed: `verifyFingerprint` never reads it. -/
theorem login_password_irrelevant (pf : Platform) (lp : LoginPage.State) (st : Storage)
    (p1 p2 : JSString) (h1 : p1 ≠ []) (h2 : p2 ≠ []) (he : lp.formData.email ≠ []) :
    (LoginPage.handleSubmit pf
        (LoginPage.handleInputChange LoginPage.Field.password p1 lp) st).storage
      = (LoginPage.handleSubmit pf
        (LoginPage.handleInputChange LoginPage.Field.password p2 lp) st).storage ∧
    (LoginPage.handleSubmit pf
        (LoginPage.handleInputChange LoginPage.Field.password p1 lp) st).trace
      = (LoginPage.handleSubmit pf
        (LoginPage.handleInputChange LoginPage.Field.password p2 lp) st).trace ∧
    (LoginPage.handleSubmit pf
        (LoginPage.handleInputChange LoginPage.Field.password p1 lp) st).page.error
      = (LoginPage.handleSubmit pf
        (LoginPage.handleInputChange LoginPage.Field.password p2 lp) st).page.error := by
  rw [login_handleSubmit_filled pf
      (LoginPage.handleInputChange LoginPage.Field.password p1 lp) st he h1,
    login_handleSubmit_filled pf
      (LoginPage.handleInputChange LoginPage.Field.password p2 lp) st he h2]
  unfold LoginPage.verifyFingerprint
  cases LoginPage.userData st with
  | none => exact ⟨rfl, rfl, rfl⟩
  | some v =>
    simp only [LoginPage.handleInputChange]
    split
    · exact ⟨rfl, rfl, rfl⟩
    · cases pf.get with
      | rejected reason => exact ⟨rfl, rfl, rfl⟩
      | resolved value =>
        cases value with
        | none => exact ⟨rfl, rfl, rfl⟩
        | some assertion => exact ⟨rfl, rfl, rfl⟩

/-! ## A second registration -/

/-- C3 as stated fails: after Alice and then Carol have registered, a login submission
with Alice's email and an empty password reports `Please fill in all fields`, not
`User not found or incorrect email`. -/
theorem login_first_email_empty_password_not_unknown_identity :
    (SignupPage.handleSubmit demoPlatform aliceSignup Storage.empty).page.message
      = lit "Registration successful!" ∧
    (SignupPage.handleSubmit demoPlatform carolSignup
      (SignupPage.handleSubmit demoPlatform aliceSignup Storage.empty).storage).page.message
      = lit "Registration successful!" ∧
    (LoginPage.handleSubmit demoPlatform aliceLoginNoPassword
      (registerTwice demoPlatform demoPlatform aliceSignup carolSignup Storage.empty)).page.error
      = some (lit "Please fill in all fields") ∧
    (LoginPage.handleSubmit demoPlatform aliceLoginNoPassword
      (registerTwice demoPlatform demoPlatform aliceSignup carolSignup Storage.empty)).page.error
      ≠ some (lit "User not found or incorrect email") := by
  decide

/-- C3, amended: after two sign-up submissions that each got a credential, with different
emails, the `user` item is the serialised record of the second one (its username, its
email, the base64 of its credential's `rawId`); a login submission with the first email and
a non-empty password reports `User not found or incorrect email` without calling the
platform, and one with the second email, a non-empty password and an assertion returned by
`navigator.credentials.get` reports `Login successful!` and makes the home page admit. -/
theorem second_registration_overwrites (pf1 pf2 pf3 pf4 : Platform)
    (sp1 sp2 : SignupPage.State) (lp1 lp2 : LoginPage.State) (st : Storage)
    (c1 c2 assertion : Credential)
    (hu1 : sp1.formData.username ≠ []) (he1 : sp1.formData.email ≠ [])
    (hp1 : sp1.formData.password ≠ [])
    (hu2 : sp2.formData.username ≠ []) (he2 : sp2.formData.email ≠ [])
    (hp2 : sp2.formData.password ≠ [])
    (hc1 : pf1.create = Settled.resolved (some c1))
    (hc2 : pf2.create = Settled.resolved (some c2))
    (hne : sp1.formData.email ≠ sp2.formData.email)
    (hl1 : lp1.formData.email = sp1.formData.email) (hw1 : lp1.formData.password ≠ [])
    (hl2 : lp2.formData.email = sp2.formData.email) (hw2 : lp2.formData.password ≠ [])
    (hget : pf4.get = Settled.resolved (some assertion)) :
    (registerTwice pf1 pf2 sp1 sp2 st).getItem Key.user =
      some (JSON.stringify
        { username := sp2.formData.username, email := sp2.formData.email,
          credentialId := encodedRawId c2 }) ∧
    LoginPage.userData (registerTwice pf1 pf2 sp1 sp2 st) =
      some (UserRecord.toJSON
        { username := sp2.formData.username, email := sp2.formData.email,
          credentialId := encodedRawId c2 }) ∧
    (LoginPage.handleSubmit pf3 lp1 (registerTwice pf1 pf2 sp1 sp2 st)).page.error
      = some (lit "User not found or incorrect email") ∧
    (LoginPage.handleSubmit pf3 lp1 (registerTwice pf1 pf2 sp1 sp2 st)).trace
      = [Effect.setError (lit "User not found or incorrect email")] ∧
    (LoginPage.handleSubmit pf4 lp2 (registerTwice pf1 pf2 sp1 sp2 st)).page.message
      = lit "Login successful!" ∧
    HomePage.isAdmitted
      (LoginPage.handleSubmit pf4 lp2 (registerTwice pf1 pf2 sp1 sp2 st)).storage = true := by
  have _h1 := signup_storage_credential pf1 sp1 st c1 hu1 he1 hp1 hc1
  have hst : registerTwice pf1 pf2 sp1 sp2 st =
      (SignupPage.handleSubmit pf1 sp1 st).storage.setItem Key.user (JSON.stringify
        { username := sp2.formData.username, email := sp2.formData.email,
          credentialId := encodedRawId c2 }) := by
    rw [registerTwice]
    exact signup_storage_credential pf2 sp2 _ c2 hu2 he2 hp2 hc2
  have hitem : (registerTwice pf1 pf2 sp1 sp2 st).getItem Key.user =
      some (JSON.stringify
        { username := sp2.formData.username, email := sp2.formData.email,
          credentialId := encodedRawId c2 }) := by
    rw [hst]; rfl
  have hfirst := login_other_record pf3 lp1 _ _ hitem (by rw [hl1]; exact hne)
    (by rw [hl1]; exact he1) hw1
  have hsecond := login_after_record pf4 lp2 _ _ assertion hitem hl2 he2 hw2 hget
  refine ⟨hitem, userData_stored _ _ hitem, ?_, ?_, ?_, ?_⟩
  · rw [hfirst]
  · rw [hfirst]
  · rw [hsecond]
  · rw [hsecond]; rfl

/-- C3 on Alice's registration followed by Carol's. -/
theorem second_registration_overwrites_witness :
    (aliceSignup.formData.username ≠ [] ∧ aliceSignup.formData.email ≠ [] ∧
      aliceSignup.formData.password ≠ [] ∧ carolSignup.formData.username ≠ [] ∧
      carolSignup.formData.email ≠ [] ∧ carolSignup.formData.password ≠ [] ∧
      demoPlatform.create = Settled.resolved (some ⟨[1, 2, 3]⟩) ∧
      aliceSignup.formData.email ≠ carolSignup.formData.email ∧
      aliceLogin.formData.email = aliceSignup.formData.email ∧
      aliceLogin.formData.password ≠ [] ∧
      carolLogin.formData.email = carolSignup.formData.email ∧
      carolLogin.formData.password ≠ [] ∧
      demoPlatform.get = Settled.resolved (some ⟨[1, 2, 3]⟩)) ∧
    ((registerTwice demoPlatform demoPlatform aliceSignup carolSignup Storage.empty).getItem
        Key.user =
      some (JSON.stringify
        { username := carolSignup.formData.username, email := carolSignup.formData.email,
          credentialId := encodedRawId ⟨[1, 2, 3]⟩ }) ∧
    LoginPage.userData (registerTwice demoPlatform demoPlatform aliceSignup carolSignup
        Storage.empty) =
      some (UserRecord.toJSON
        { username := carolSignup.formData.username, email := carolSignup.formData.email,
          credentialId := encodedRawId ⟨[1, 2, 3]⟩ }) ∧
    (LoginPage.handleSubmit demoPlatform aliceLogin (registerTwice demoPlatform demoPlatform
        aliceSignup carolSignup Storage.empty)).page.error
      = some (lit "User not found or incorrect email") ∧
    (LoginPage.handleSubmit demoPlatform aliceLogin (registerTwice demoPlatform demoPlatform
        aliceSignup carolSignup Storage.empty)).trace
      = [Effect.setError (lit "User not found or incorrect email")] ∧
    (LoginPage.handleSubmit demoPlatform carolLogin (registerTwice demoPlatform demoPlatform
        aliceSignup carolSignup Storage.empty)).page.message
      = lit "Login successful!" ∧
    HomePage.isAdmitted
      (LoginPage.handleSubmit demoPlatform carolLogin (registerTwice demoPlatform demoPlatform
        aliceSignup carolSignup Storage.empty)).storage = true) :=
  ⟨⟨by decide, by decide, by decide, by decide, by decide, by decide, rfl, by decide,
      by decide, by decide, by decide, by decide, rfl⟩,
    second_registration_overwrites demoPlatform demoPlatform demoPlatform demoPlatform
      aliceSignup carolSignup aliceLogin carolLogin Storage.empty ⟨[1, 2, 3]⟩ ⟨[1, 2, 3]⟩
      ⟨[1, 2, 3]⟩ (by decide) (by decide) (by decide) (by decide) (by decide) (by decide)
      rfl rfl (by decide) (by decide) (by decide) (by decide) (by decide) rfl⟩

/-! ## What a submission can do to the storage -/

theorem signup_handleSubmit_cases (pf : Platform) (pg : SignupPage.State) (st : Storage) :
    ((SignupPage.handleSubmit pf pg st).storage = st ∧
      (∀ text, Effect.setMessage text ∉ (SignupPage.handleSubmit pf pg st).trace) ∧
      Op.completesRegistration (Op.register pf pg) = false) ∨
    ((∃ credential, pf.create = Settled.resolved (some credential) ∧
        (SignupPage.handleSubmit pf pg st).storage = st.setItem Key.user (JSON.stringify
          { username := pg.formData.username, email := pg.formData.email,
            credentialId := encodedRawId credential })) ∧
      (SignupPage.handleSubmit pf pg st).trace =
        [Effect.getRandomValues (getRandomValues pf 32),
          Effect.credentialsCreate (SignupPage.createCredentialOptions (getRandomValues pf 32)
            pf.hostname pg.formData.username pg.formData.email),
          Effect.setMessage (lit "Registration successful!"),
          Effect.navigateAfter (lit "/login") 1500] ∧
      Op.completesRegistration (Op.register pf pg) = true) := by
  by_cases hu : pg.formData.username = []
  · left
    rw [signup_handleSubmit_empty pf pg st (Or.inl hu)]
    simp [Op.completesRegistration, hu, JSString.truthy]
  by_cases he : pg.formData.email = []
  · left
    rw [signup_handleSubmit_empty pf pg st (Or.inr (Or.inl he))]
    simp [Op.completesRegistration, he, JSString.truthy]
  by_cases hp : pg.formData.password = []
  · left
    rw [signup_handleSubmit_empty pf pg st (Or.inr (Or.inr hp))]
    simp [Op.completesRegistration, hp, JSString.truthy]
  rw [signup_handleSubmit_filled pf pg st hu he hp]
  have htu := (truthy_iff _).mpr hu
  have hte := (truthy_iff _).mpr he
  have htp := (truthy_iff _).mpr hp
  cases hc : pf.create with
  | rejected reason =>
    left
    rw [registerFingerprint_rejected pf pg st reason hc]
    simp [Op.completesRegistration, hc]
  | resolved value =>
    cases value with
    | none =>
      left
      rw [registerFingerprint_null pf pg st hc]
      simp [Op.completesRegistration, hc]
    | some credential =>
      right
      rw [registerFingerprint_credential pf pg st credential hc]
      refine ⟨⟨credential, rfl, rfl⟩, rfl, ?_⟩
      simp [Op.completesRegistration, hc, htu, hte, htp]

theorem login_handleSubmit_cases (pf : Platform) (pg : LoginPage.State) (st : Storage) :
    ((LoginPage.handleSubmit pf pg st).storage = st ∧
      (∀ text, Effect.setMessage text ∉ (LoginPage.handleSubmit pf pg st).trace)) ∨
    ((∃ assertion, pf.get = Settled.resolved (some assertion)) ∧
      (LoginPage.handleSubmit pf pg st).storage = st.setItem Key.isAuthenticated (lit "true") ∧
      Effect.setMessage (lit "Login successful!") ∈ (LoginPage.handleSubmit pf pg st).trace) := by
  by_cases he : pg.formData.email = []
  · left
    rw [login_handleSubmit_empty pf pg st (Or.inl he)]
    simp
  by_cases hp : pg.formData.password = []
  · left
    rw [login_handleSubmit_empty pf pg st (Or.inr hp)]
    simp
  rw [login_handleSubmit_filled pf pg st he hp]
  cases hv : LoginPage.userData st with
  | none =>
    left
    rw [verifyFingerprint_throws pf pg st hv]
    simp
  | some v =>
    by_cases heq : v.getProperty (lit "email") = some (JSON.string pg.formData.email)
    · cases hg : pf.get with
      | rejected reason =>
        left
        rw [verifyFingerprint_rejected pf pg st v reason hv heq hg]
        simp
      | resolved value =>
        cases value with
        | none =>
          left
          rw [verifyFingerprint_null pf pg st v hv heq hg]
          simp
        | some assertion =>
          right
          rw [verifyFingerprint_assertion pf pg st v assertion hv heq hg]
          exact ⟨⟨assertion, rfl⟩, rfl, by simp⟩
    · left
      rw [verifyFingerprint_unknown pf pg st v hv heq]
      simp

theorem isAdmitted_setItem_user (st : Storage) (item : JSString) :
    HomePage.isAdmitted (st.setItem Key.user item) = HomePage.isAdmitted st := rfl

theorem isAdmitted_handleLogout (st : Storage) :
    HomePage.isAdmitted (HomePage.handleLogout st).storage = false := rfl

/-- One operation keeps the home page from admitting unless it reports a successful login. -/
theorem step_not_admitted (st : Storage) (op : Op) (h : HomePage.isAdmitted st = false)
    (hno : Effect.setMessage (lit "Login successful!") ∉ (step st op).2) :
    HomePage.isAdmitted (step st op).1 = false := by
  cases op with
  | register pf pg =>
    rcases signup_handleSubmit_cases pf pg st with ⟨hs, _, _⟩ | ⟨⟨c, _, hs⟩, _, _⟩
    · simp only [step, hs, h]
    · simp only [step, hs, isAdmitted_setItem_user, h]
  | login pf pg =>
    rcases login_handleSubmit_cases pf pg st with ⟨hs, _⟩ | ⟨_, _, hm⟩
    · simp only [step, hs, h]
    · exact absurd hm hno
  | isAdmitted =>
    simp only [step, HomePage.useEffect]
    split <;> exact h
  | logout => rfl

theorem run_not_admitted (ops : List Op) :
    ∀ st : Storage, HomePage.isAdmitted st = false →
      Effect.setMessage (lit "Login successful!") ∉ (run st ops).2 →
      HomePage.isAdmitted (run st ops).1 = false := by
  induction ops with
  | nil => intro st h _; exact h
  | cons op ops ih =>
    intro st h hno
    simp only [run, List.mem_append, not_or] at hno ⊢
    exact ih _ (step_not_admitted st op h hno.1) hno.2

/-- C4: the session flag is a two-state machine. After `handleLogout` the home page does
not admit, from every storage. One operation takes a storage that does not admit to one
that admits only if it is a login submission whose `navigator.credentials.get` returned an
assertion (and which reported `Login successful!`); it takes a storage that admits to one
that does not only if it is the logout. Hence after a logout, along every sequence of
operations in which no login reports success, the home page still does not admit. -/
theorem session_flag_two_states :
    (∀ st : Storage, HomePage.isAdmitted (HomePage.handleLogout st).storage = false) ∧
    (∀ (st : Storage) (op : Op), HomePage.isAdmitted st = false →
      HomePage.isAdmitted (step st op).1 = true →
      ∃ pf pg assertion, op = Op.login pf pg ∧ pf.get = Settled.resolved (some assertion) ∧
        Effect.setMessage (lit "Login successful!") ∈ (step st op).2) ∧
    (∀ (st : Storage) (op : Op), HomePage.isAdmitted st = true →
      HomePage.isAdmitted (step st op).1 = false → op = Op.logout) ∧
    (∀ (st : Storage) (ops : List Op),
      Effect.setMessage (lit "Login successful!") ∉
        (run (HomePage.handleLogout st).storage ops).2 →
      HomePage.isAdmitted (run (HomePage.handleLogout st).storage ops).1 = false) := by
  refine ⟨isAdmitted_handleLogout, ?_, ?_, ?_⟩
  · intro st op h0 h1
    cases op with
    | register pf pg =>
      have := step_not_admitted st (Op.register pf pg) h0 (by
        rcases signup_handleSubmit_cases pf pg st with ⟨_, hm, _⟩ | ⟨_, ht, _⟩
        · exact hm _
        · have hne : lit "Login successful!" ≠ lit "Registration successful!" := by decide
          simp [step, ht, hne])
      rw [this] at h1; cases h1
    | login pf pg =>
      rcases login_handleSubmit_cases pf pg st with ⟨hs, _⟩ | ⟨⟨a, ha⟩, _, hm⟩
      · simp only [step, hs, h0] at h1; cases h1
      · exact ⟨pf, pg, a, rfl, ha, hm⟩
    | isAdmitted =>
      have := step_not_admitted st Op.isAdmitted h0 (by
        simp only [step, HomePage.useEffect]; split <;> simp)
      rw [this] at h1; cases h1
    | logout => cases h1
  · intro st op h1 h0
    cases op with
    | register pf pg =>
      rcases signup_handleSubmit_cases pf pg st with ⟨hs, _, _⟩ | ⟨⟨c, _, hs⟩, _, _⟩
      · simp only [step, hs, h1] at h0; cases h0
      · simp only [step, hs, isAdmitted_setItem_user, h1] at h0; cases h0
    | login pf pg =>
      rcases login_handleSubmit_cases pf pg st with ⟨hs, _⟩ | ⟨_, hs, _⟩
      · simp only [step, hs, h1] at h0; cases h0
      · simp only [step, hs] at h0; cases h0
    | isAdmitted =>
      simp only [step, HomePage.useEffect] at h0
      split at h0 <;> simp only [h1] at h0 <;> cases h0
    | logout => rfl
  · intro st ops hno
    exact run_not_admitted ops _ (isAdmitted_handleLogout st) hno

/-! ## Rejected and failed registrations -/

/-- C5: a sign-up submission with the username, the email or the password empty only
reports `Please fill in all fields`: it calls neither `crypto.getRandomValues` nor
`navigator.credentials.create`, and the storage, the `user` item in particular, is what it
was. -/
theorem register_empty_field_rejected (pf : Platform) (pg : SignupPage.State) (st : Storage)
    (h : pg.formData.username = [] ∨ pg.formData.email = [] ∨ pg.formData.password = []) :
    (SignupPage.handleSubmit pf pg st).page.error = some (lit "Please fill in all fields") ∧
    (SignupPage.handleSubmit pf pg st).trace
      = [Effect.setError (lit "Please fill in all fields")] ∧
    (∀ options, Effect.credentialsCreate options ∉ (SignupPage.handleSubmit pf pg st).trace) ∧
    (∀ challenge, Effect.getRandomValues challenge ∉
      (SignupPage.handleSubmit pf pg st).trace) ∧
    (SignupPage.handleSubmit pf pg st).storage = st ∧
    (SignupPage.handleSubmit pf pg st).storage.getItem Key.user = st.getItem Key.user := by
  rw [signup_handleSubmit_empty pf pg st h]
  refine ⟨rfl, rfl, ?_, ?_, rfl, rfl⟩
  · intro options; simp
  · intro challenge; simp

/-- C5, Scenario C: a registration with an empty username, on a storage that already holds
Alice's record. -/
theorem register_empty_field_rejected_witness :
    (noUsernameSignup.formData.username = [] ∨ noUsernameSignup.formData.email = [] ∨
      noUsernameSignup.formData.password = []) ∧
    ((SignupPage.handleSubmit demoPlatform noUsernameSignup aliceStorage).page.error
        = some (lit "Please fill in all fields") ∧
      (SignupPage.handleSubmit demoPlatform noUsernameSignup aliceStorage).trace
        = [Effect.setError (lit "Please fill in all fields")] ∧
      (∀ options, Effect.credentialsCreate options ∉
        (SignupPage.handleSubmit demoPlatform noUsernameSignup aliceStorage).trace) ∧
      (∀ challenge, Effect.getRandomValues challenge ∉
        (SignupPage.handleSubmit demoPlatform noUsernameSignup aliceStorage).trace) ∧
      (SignupPage.handleSubmit demoPlatform noUsernameSignup aliceStorage).storage
        = aliceStorage ∧
      (SignupPage.handleSubmit demoPlatform noUsernameSignup aliceStorage).storage.getItem
        Key.user = aliceStorage.getItem Key.user) :=
  ⟨Or.inl rfl,
    register_empty_field_rejected demoPlatform noUsernameSignup aliceStorage (Or.inl rfl)⟩

/-- C6: when the three fields are filled in and the promise of
`navigator.credentials.create` is rejected (a timeout, a cancellation, any exception), the
sign-up submission reports `Error registering fingerprint: ` followed by the reason,
reports no success message, and leaves the storage, both the `user` item and the
`isAuthenticated` item, as it was. -/
theorem register_ceremony_failed (pf : Platform) (pg : SignupPage.State) (st : Storage)
    (reason : JSString)
    (hu : pg.formData.username ≠ []) (he : pg.formData.email ≠ [])
    (hp : pg.formData.password ≠ [])
    (hcreate : pf.create = Settled.rejected reason) :
    (SignupPage.handleSubmit pf pg st).page.error
      = some (lit "Error registering fingerprint: " ++ reason) ∧
    Effect.setError (lit "Error registering fingerprint: " ++ reason)
      ∈ (SignupPage.handleSubmit pf pg st).trace ∧
    (∀ text, Effect.setMessage text ∉ (SignupPage.handleSubmit pf pg st).trace) ∧
    (SignupPage.handleSubmit pf pg st).page.message = pg.message ∧
    (SignupPage.handleSubmit pf pg st).storage = st ∧
    (SignupPage.handleSubmit pf pg st).storage.getItem Key.user = st.getItem Key.user ∧
    (SignupPage.handleSubmit pf pg st).storage.getItem Key.isAuthenticated
      = st.getItem Key.isAuthenticated := by
  rw [signup_handleSubmit_filled pf pg st hu he hp,
    registerFingerprint_rejected pf pg st reason hcreate]
  refine ⟨rfl, by simp, ?_, rfl, rfl, rfl, rfl⟩
  intro text; simp

/-- C6, Scenario D: the creation call times out while Alice's record is stored. -/
theorem register_ceremony_failed_witness :
    (carolSignup.formData.username ≠ [] ∧ carolSignup.formData.email ≠ [] ∧
      carolSignup.formData.password ≠ [] ∧
      timeoutPlatform.create = Settled.rejected
        (lit "NotAllowedError: The operation either timed out or was not allowed.")) ∧
    ((SignupPage.handleSubmit timeoutPlatform carolSignup aliceStorage).page.error
        = some (lit "Error registering fingerprint: " ++
          lit "NotAllowedError: The operation either timed out or was not allowed.") ∧
      Effect.setError (lit "Error registering fingerprint: " ++
          lit "NotAllowedError: The operation either timed out or was not allowed.")
        ∈ (SignupPage.handleSubmit timeoutPlatform carolSignup aliceStorage).trace ∧
      (∀ text, Effect.setMessage text ∉
        (SignupPage.handleSubmit timeoutPlatform carolSignup aliceStorage).trace) ∧
      (SignupPage.handleSubmit timeoutPlatform carolSignup aliceStorage).page.message
        = carolSignup.message ∧
      (SignupPage.handleSubmit timeoutPlatform carolSignup aliceStorage).storage
        = aliceStorage ∧
      (SignupPage.handleSubmit timeoutPlatform carolSignup aliceStorage).storage.getItem
        Key.user = aliceStorage.getItem Key.user ∧
      (SignupPage.handleSubmit timeoutPlatform carolSignup aliceStorage).storage.getItem
        Key.isAuthenticated = aliceStorage.getItem Key.isAuthenticated) :=
  ⟨⟨by decide, by decide, by decide, rfl⟩,
    register_ceremony_failed timeoutPlatform carolSignup aliceStorage
      (lit "NotAllowedError: The operation either timed out or was not allowed.")
      (by decide) (by decide) (by decide) rfl⟩

/-! ## Unsupported platforms -/

/-- On a platform without `window.PublicKeyCredential`, or once the promise of
`isUserVerifyingPlatformAuthenticatorAvailable()` has settled with `false`, the mounted
sign-up and login components show the corresponding error and disable the submit button,
whatever is typed; a submission then performs no effect at all (no `navigator.credentials`
call) and leaves the storage as it was, a stored record with the submitted email
included. -/
theorem unsupported_platform_blocks (pf : Platform)
    (h : pf.publicKeyCredential = false ∨
      pf.authenticatorAvailable = Settled.resolved false) :
    (∀ (username email password : JSString) (st : Storage),
      ((SignupPage.mountedForm pf username email password).error
          = some (lit "WebAuthn is not supported in this browser") ∨
        (SignupPage.mountedForm pf username email password).error
          = some (lit "Fingerprint authentication is not available on this device")) ∧
      SignupPage.submitDisabled (SignupPage.mountedForm pf username email password) = true ∧
      SignupPage.onSubmit pf (SignupPage.mountedForm pf username email password) st
        = ⟨SignupPage.mountedForm pf username email password, st, []⟩) ∧
    (∀ (email password : JSString) (st : Storage),
      ((LoginPage.mountedForm pf email password).error
          = some (lit "WebAuthn is not supported in this browser") ∨
        (LoginPage.mountedForm pf email password).error
          = some (lit "Fingerprint authentication is not available on this device")) ∧
      LoginPage.submitDisabled (LoginPage.mountedForm pf email password) = true ∧
      LoginPage.onSubmit pf (LoginPage.mountedForm pf email password) st
        = ⟨LoginPage.mountedForm pf email password, st, []⟩) := by
  have hs : ∀ username email password,
      ((SignupPage.mountedForm pf username email password).error
          = some (lit "WebAuthn is not supported in this browser") ∨
        (SignupPage.mountedForm pf username email password).error
          = some (lit "Fingerprint authentication is not available on this device")) ∧
      SignupPage.submitDisabled (SignupPage.mountedForm pf username email password)
        = true := by
    intro username email password
    cases hpk : pf.publicKeyCredential with
    | false =>
      refine ⟨Or.inl ?_, ?_⟩ <;>
        simp [SignupPage.mountedForm, SignupPage.handleInputChange, SignupPage.useEffect,
          SignupPage.promiseSettled, hpk,
          SignupPage.submitDisabled, SignupPage.initial]
    | true =>
      have ha : pf.authenticatorAvailable = Settled.resolved false := by
        rcases h with h | h
        · rw [hpk] at h; cases h
        · exact h
      have hlit : truthy? (some (lit
          "Fingerprint authentication is not available on this device")) = true := by decide
      refine ⟨Or.inr ?_, ?_⟩ <;>
        simp [SignupPage.mountedForm, SignupPage.handleInputChange, SignupPage.useEffect,
          SignupPage.promiseSettled, hpk,
          ha, SignupPage.availabilitySettled, SignupPage.submitDisabled, hlit]
  have hl : ∀ email password,
      ((LoginPage.mountedForm pf email password).error
          = some (lit "WebAuthn is not supported in this browser") ∨
        (LoginPage.mountedForm pf email password).error
          = some (lit "Fingerprint authentication is not available on this device")) ∧
      LoginPage.submitDisabled (LoginPage.mountedForm pf email password) = true := by
    intro email password
    cases hpk : pf.publicKeyCredential with
    | false =>
      refine ⟨Or.inl ?_, ?_⟩ <;>
        simp [LoginPage.mountedForm, LoginPage.handleInputChange, LoginPage.useEffect,
          LoginPage.promiseSettled, hpk,
          LoginPage.submitDisabled, LoginPage.initial]
    | true =>
      have ha : pf.authenticatorAvailable = Settled.resolved false := by
        rcases h with h | h
        · rw [hpk] at h; cases h
        · exact h
      have hlit : truthy? (some (lit
          "Fingerprint authentication is not available on this device")) = true := by decide
      refine ⟨Or.inr ?_, ?_⟩ <;>
        simp [LoginPage.mountedForm, LoginPage.handleInputChange, LoginPage.useEffect,
          LoginPage.promiseSettled, hpk,
          ha, LoginPage.availabilitySettled, LoginPage.submitDisabled, hlit]
  refine ⟨?_, ?_⟩
  · intro username email password st
    refine ⟨(hs username email password).1, (hs username email password).2, ?_⟩
    simp [SignupPage.onSubmit, (hs username email password).2]
  · intro email password st
    refine ⟨(hl email password).1, (hl email password).2, ?_⟩
    simp [LoginPage.onSubmit, (hl email password).2]

/-- On a platform with `window.PublicKeyCredential` and an available user-verifying
authenticator the mounted forms have their submit button enabled: a submission runs
`handleSubmit`. -/
theorem supported_platform_submits (pf : Platform) (hpk : pf.publicKeyCredential = true)
    (ha : pf.authenticatorAvailable = Settled.resolved true) :
    (∀ (username email password : JSString) (st : Storage),
      SignupPage.onSubmit pf (SignupPage.mountedForm pf username email password) st
        = SignupPage.handleSubmit pf (SignupPage.mountedForm pf username email password) st) ∧
    (∀ (email password : JSString) (st : Storage),
      LoginPage.onSubmit pf (LoginPage.mountedForm pf email password) st
        = LoginPage.handleSubmit pf (LoginPage.mountedForm pf email password) st) := by
  refine ⟨?_, ?_⟩
  · intro username email password st
    have hd : SignupPage.submitDisabled (SignupPage.mountedForm pf username email password)
        = false := by
      simp [SignupPage.mountedForm, SignupPage.handleInputChange, SignupPage.useEffect,
          SignupPage.promiseSettled, hpk, ha,
        SignupPage.availabilitySettled, SignupPage.submitDisabled, SignupPage.initial, truthy?]
    simp [SignupPage.onSubmit, hd]
  · intro email password st
    have hd : LoginPage.submitDisabled (LoginPage.mountedForm pf email password) = false := by
      simp [LoginPage.mountedForm, LoginPage.handleInputChange, LoginPage.useEffect,
          LoginPage.promiseSettled, hpk, ha,
        LoginPage.availabilitySettled, LoginPage.submitDisabled, LoginPage.initial, truthy?]
    simp [LoginPage.onSubmit, hd]

/-- The blocked forms on a browser without `window.PublicKeyCredential`. -/
theorem unsupported_platform_blocks_witness :
    (noWebAuthnPlatform.publicKeyCredential = false ∨
      noWebAuthnPlatform.authenticatorAvailable = Settled.resolved false) ∧
    ((∀ (username email password : JSString) (st : Storage),
      ((SignupPage.mountedForm noWebAuthnPlatform username email password).error
          = some (lit "WebAuthn is not supported in this browser") ∨
        (SignupPage.mountedForm noWebAuthnPlatform username email password).error
          = some (lit "Fingerprint authentication is not available on this device")) ∧
      SignupPage.submitDisabled
        (SignupPage.mountedForm noWebAuthnPlatform username email password) = true ∧
      SignupPage.onSubmit noWebAuthnPlatform
          (SignupPage.mountedForm noWebAuthnPlatform username email password) st
        = ⟨SignupPage.mountedForm noWebAuthnPlatform username email password, st, []⟩) ∧
    (∀ (email password : JSString) (st : Storage),
      ((LoginPage.mountedForm noWebAuthnPlatform email password).error
          = some (lit "WebAuthn is not supported in this browser") ∨
        (LoginPage.mountedForm noWebAuthnPlatform email password).error
          = some (lit "Fingerprint authentication is not available on this device")) ∧
      LoginPage.submitDisabled (LoginPage.mountedForm noWebAuthnPlatform email password)
        = true ∧
      LoginPage.onSubmit noWebAuthnPlatform
          (LoginPage.mountedForm noWebAuthnPlatform email password) st
        = ⟨LoginPage.mountedForm noWebAuthnPlatform email password, st, []⟩)) :=
  ⟨Or.inl rfl, unsupported_platform_blocks noWebAuthnPlatform (Or.inl rfl)⟩

/-! ## A ceremony that resolves with `null` -/

/-- C8, the failing input: with the fields filled in and `navigator.credentials.create`
resolving with `null`, the sign-up submission calls the platform and then reports nothing:
the component state (`error` is `null`, `message` is empty) and the storage are unchanged
and the effects are the two platform calls only. The login submission on Alice's stored
record with `navigator.credentials.get` resolving with `null` does the same. -/
theorem ceremony_resolving_null_reports_nothing :
    (SignupPage.handleSubmit nullPlatform aliceSignup Storage.empty).page = aliceSignup ∧
    (SignupPage.handleSubmit nullPlatform aliceSignup Storage.empty).trace =
      [Effect.getRandomValues (getRandomValues nullPlatform 32),
        Effect.credentialsCreate (SignupPage.createCredentialOptions
          (getRandomValues nullPlatform 32) (lit "localhost") (lit "alice")
          (lit "alice@x.com"))] ∧
    (SignupPage.handleSubmit nullPlatform aliceSignup Storage.empty).storage = Storage.empty ∧
    (LoginPage.handleSubmit nullPlatform aliceLogin aliceStorage).page = aliceLogin ∧
    (LoginPage.handleSubmit nullPlatform aliceLogin aliceStorage).trace =
      [Effect.getRandomValues (getRandomValues nullPlatform 32),
        Effect.credentialsGet (LoginPage.getCredentialOptions
          (getRandomValues nullPlatform 32))] ∧
    (LoginPage.handleSubmit nullPlatform aliceLogin aliceStorage).storage = aliceStorage := by
  decide

/-- With the fields filled in, a sign-up submission reports an error or a success unless
`navigator.credentials.create` resolves with `null`. -/
theorem signup_reports_unless_null (pf : Platform) (pg : SignupPage.State) (st : Storage)
    (hu : pg.formData.username ≠ []) (he : pg.formData.email ≠ [])
    (hp : pg.formData.password ≠ []) (hnull : pf.create ≠ Settled.resolved none) :
    (∃ text, Effect.setError text ∈ (SignupPage.handleSubmit pf pg st).trace) ∨
    Effect.setMessage (lit "Registration successful!")
      ∈ (SignupPage.handleSubmit pf pg st).trace := by
  rw [signup_handleSubmit_filled pf pg st hu he hp]
  cases hc : pf.create with
  | rejected reason =>
    left
    rw [registerFingerprint_rejected pf pg st reason hc]
    refine ⟨lit "Error registering fingerprint: " ++ reason, ?_⟩
    simp
  | resolved value =>
    cases value with
    | none => exact absurd hc hnull
    | some credential =>
      right
      rw [registerFingerprint_credential pf pg st credential hc]
      simp

/-- With the fields filled in, a login submission reports an error or a success, a
stored item that `JSON.parse` rejects included, unless `navigator.credentials.get`
resolves with `null`. -/
theorem login_reports_unless_null (pf : Platform) (pg : LoginPage.State) (st : Storage)
    (he : pg.formData.email ≠ []) (hp : pg.formData.password ≠ [])
    (hnull : pf.get ≠ Settled.resolved none) :
    (∃ text, Effect.setError text ∈ (LoginPage.handleSubmit pf pg st).trace) ∨
    Effect.setMessage (lit "Login successful!") ∈ (LoginPage.handleSubmit pf pg st).trace := by
  rw [login_handleSubmit_filled pf pg st he hp]
  cases hv : LoginPage.userData st with
  | none =>
    left
    rw [verifyFingerprint_throws pf pg st hv]
    refine ⟨lit "Error verifying fingerprint: " ++ pf.parseErrorText, ?_⟩
    simp
  | some v =>
    by_cases heq : v.getProperty (lit "email") = some (JSON.string pg.formData.email)
    · cases hg : pf.get with
      | rejected reason =>
        left
        rw [verifyFingerprint_rejected pf pg st v reason hv heq hg]
        refine ⟨lit "Error verifying fingerprint: " ++ reason, ?_⟩
        simp
      | resolved value =>
        cases value with
        | none => exact absurd hg hnull
        | some assertion =>
          right
          rw [verifyFingerprint_assertion pf pg st v assertion hv heq hg]
          simp
    · left
      rw [verifyFingerprint_unknown pf pg st v hv heq]
      refine ⟨lit "User not found or incorrect email", ?_⟩
      simp

/-! ## The creation parameters -/

theorem registerFingerprint_create_mem (pf : Platform) (pg : SignupPage.State) (st : Storage)
    (options : CreateOptions) :
    Effect.credentialsCreate options ∈ (SignupPage.registerFingerprint pf pg st).trace ↔
      options = SignupPage.createCredentialOptions (getRandomValues pf 32) pf.hostname
        pg.formData.username pg.formData.email := by
  cases hc : pf.create with
  | rejected reason =>
    rw [registerFingerprint_rejected pf pg st reason hc]; simp
  | resolved value =>
    cases value with
    | none => rw [registerFingerprint_null pf pg st hc]; simp
    | some credential => rw [registerFingerprint_credential pf pg st credential hc]; simp

theorem getRandomValues_length (pf : Platform) (n : Nat) :
    (getRandomValues pf n).length = n := by
  simp [getRandomValues]

theorem getRandomValues_byte (pf : Platform) (n b : Nat) (h : b ∈ getRandomValues pf n) :
    b < 256 := by
  simp only [getRandomValues, List.mem_map] at h
  obtain ⟨i, _, rfl⟩ := h
  exact Nat.mod_lt _ (by decide)

/-- C9: the parameters a sign-up submission passes to `navigator.credentials.create` are: a
challenge of exactly 32 bytes (the ones `crypto.getRandomValues` wrote), `rp` with the name
`PWA Fingerprint Demo` and `window.location.hostname` as id, `user` with the email as name,
the username as display name and an id computed from the username alone,
`pubKeyCredParams` with the algorithms -7 and -257 in that order, the authenticator
attachment `platform`, the user verification `required` and the timeout 60000. They are
`createCredentialOptions` of the challenge, the host name, the username and the email: the
password is not among its arguments, and typing any other non-empty password passes the
same parameters. -/
theorem creation_parameters (pf : Platform) (pg : SignupPage.State) (st : Storage)
    (options : CreateOptions)
    (h : Effect.credentialsCreate options ∈ (SignupPage.handleSubmit pf pg st).trace) :
    options.challenge.length = 32 ∧
    (∀ b ∈ options.challenge, b < 256) ∧
    options.challenge = getRandomValues pf 32 ∧
    options.rp.name = lit "PWA Fingerprint Demo" ∧
    options.rp.id = pf.hostname ∧
    options.user.name = pg.formData.email ∧
    options.user.displayName = pg.formData.username ∧
    options.user.id = Uint8Array.fromString pg.formData.username ∧
    options.pubKeyCredParams
      = [{ type := lit "public-key", alg := -7 }, { type := lit "public-key", alg := -257 }] ∧
    options.authenticatorSelection.authenticatorAttachment = lit "platform" ∧
    options.authenticatorSelection.userVerification = lit "required" ∧
    options.timeout = 60000 ∧
    options = SignupPage.createCredentialOptions (getRandomValues pf 32) pf.hostname
      pg.formData.username pg.formData.email ∧
    (∀ password : JSString, password ≠ [] →
      Effect.credentialsCreate options ∈ (SignupPage.handleSubmit pf
        (SignupPage.handleInputChange SignupPage.Field.password password pg) st).trace) := by
  by_cases hu : pg.formData.username = []
  · rw [signup_handleSubmit_empty pf pg st (Or.inl hu)] at h; simp at h
  by_cases he : pg.formData.email = []
  · rw [signup_handleSubmit_empty pf pg st (Or.inr (Or.inl he))] at h; simp at h
  by_cases hp : pg.formData.password = []
  · rw [signup_handleSubmit_empty pf pg st (Or.inr (Or.inr hp))] at h; simp at h
  rw [signup_handleSubmit_filled pf pg st hu he hp, registerFingerprint_create_mem] at h
  subst h
  refine ⟨getRandomValues_length pf 32, fun b hb => getRandomValues_byte pf 32 b hb, rfl, rfl,
    rfl, rfl, rfl, rfl, rfl, rfl, rfl, rfl, rfl, ?_⟩
  intro password hpw
  rw [signup_handleSubmit_filled pf
    (SignupPage.handleInputChange SignupPage.Field.password password pg) st hu he hpw,
    registerFingerprint_create_mem]
  rfl

/-- C9 on Alice's registration. -/
theorem creation_parameters_witness :
    Effect.credentialsCreate aliceOptions
      ∈ (SignupPage.handleSubmit demoPlatform aliceSignup Storage.empty).trace ∧
    (aliceOptions.challenge.length = 32 ∧
    (∀ b ∈ aliceOptions.challenge, b < 256) ∧
    aliceOptions.challenge = getRandomValues demoPlatform 32 ∧
    aliceOptions.rp.name = lit "PWA Fingerprint Demo" ∧
    aliceOptions.rp.id = demoPlatform.hostname ∧
    aliceOptions.user.name = aliceSignup.formData.email ∧
    aliceOptions.user.displayName = aliceSignup.formData.username ∧
    aliceOptions.user.id = Uint8Array.fromString aliceSignup.formData.username ∧
    aliceOptions.pubKeyCredParams
      = [{ type := lit "public-key", alg := -7 }, { type := lit "public-key", alg := -257 }] ∧
    aliceOptions.authenticatorSelection.authenticatorAttachment = lit "platform" ∧
    aliceOptions.authenticatorSelection.userVerification = lit "required" ∧
    aliceOptions.timeout = 60000 ∧
    aliceOptions = SignupPage.createCredentialOptions (getRandomValues demoPlatform 32)
      demoPlatform.hostname aliceSignup.formData.username aliceSignup.formData.email ∧
    (∀ password : JSString, password ≠ [] →
      Effect.credentialsCreate aliceOptions ∈ (SignupPage.handleSubmit demoPlatform
        (SignupPage.handleInputChange SignupPage.Field.password password aliceSignup)
        Storage.empty).trace)) :=
  ⟨by decide,
    creation_parameters demoPlatform aliceSignup Storage.empty aliceOptions (by decide)⟩

/-! ## When the identity record exists -/

theorem step_user_isSome (st : Storage) (op : Op) :
    ((step st op).1.getItem Key.user).isSome
      = ((st.getItem Key.user).isSome || op.completesRegistration) := by
  cases op with
  | register pf pg =>
    rcases signup_handleSubmit_cases pf pg st with ⟨hs, _, hc⟩ | ⟨⟨c, _, hs⟩, _, hc⟩
    · simp only [step, hs, hc, Bool.or_false]
    · simp only [step, hs, hc, Bool.or_true]; rfl
  | login pf pg =>
    rcases login_handleSubmit_cases pf pg st with ⟨hs, _⟩ | ⟨_, hs, _⟩
    · simp only [step, hs, Op.completesRegistration, Bool.or_false]
    · simp only [step, hs, Op.completesRegistration, Bool.or_false]; rfl
  | isAdmitted =>
    simp only [step, HomePage.useEffect, Op.completesRegistration, Bool.or_false]
    split <;> rfl
  | logout => simp only [step, Op.completesRegistration, Bool.or_false]; rfl

theorem run_user_isSome (ops : List Op) :
    ∀ st : Storage, ((run st ops).1.getItem Key.user).isSome
      = ((st.getItem Key.user).isSome || ops.any Op.completesRegistration) := by
  induction ops with
  | nil => intro st; simp [run]
  | cons op ops ih =>
    intro st
    simp only [run, ih, step_user_isSome, List.any_cons, Bool.or_assoc]

theorem step_user_unchanged (st : Storage) (op : Op)
    (h : op.completesRegistration = false) :
    (step st op).1.getItem Key.user = st.getItem Key.user := by
  cases op with
  | register pf pg =>
    rcases signup_handleSubmit_cases pf pg st with ⟨hs, _, _⟩ | ⟨_, _, hc⟩
    · simp only [step, hs]
    · rw [hc] at h; cases h
  | login pf pg =>
    rcases login_handleSubmit_cases pf pg st with ⟨hs, _⟩ | ⟨_, hs, _⟩
    · simp only [step, hs]
    · simp only [step, hs]; rfl
  | isAdmitted =>
    simp only [step, HomePage.useEffect]
    split <;> rfl
  | logout => rfl

theorem step_reports_registration (st : Storage) (op : Op) :
    op.completesRegistration = true ↔
      Effect.setMessage (lit "Registration successful!") ∈ (step st op).2 := by
  have hne : lit "Registration successful!" ≠ lit "Login successful!" := by decide
  cases op with
  | register pf pg =>
    rcases signup_handleSubmit_cases pf pg st with ⟨_, hm, hc⟩ | ⟨_, ht, hc⟩
    · simp only [step, hc, Bool.false_eq_true, false_iff]; exact hm _
    · simp [step, hc, ht]
  | login pf pg =>
    simp only [Op.completesRegistration, Bool.false_eq_true, false_iff, step]
    by_cases he : pg.formData.email = []
    · rw [login_handleSubmit_empty pf pg st (Or.inl he)]; simp
    by_cases hp : pg.formData.password = []
    · rw [login_handleSubmit_empty pf pg st (Or.inr hp)]; simp
    rw [login_handleSubmit_filled pf pg st he hp]
    cases hv : LoginPage.userData st with
    | none => rw [verifyFingerprint_throws pf pg st hv]; simp
    | some v =>
      by_cases heq : v.getProperty (lit "email") = some (JSON.string pg.formData.email)
      · cases hg : pf.get with
        | rejected reason => rw [verifyFingerprint_rejected pf pg st v reason hv heq hg]; simp
        | resolved value =>
          cases value with
          | none => rw [verifyFingerprint_null pf pg st v hv heq hg]; simp
          | some assertion =>
            rw [verifyFingerprint_assertion pf pg st v assertion hv heq hg]; simp [hne]
      · rw [verifyFingerprint_unknown pf pg st v hv heq]; simp
  | isAdmitted =>
    simp only [Op.completesRegistration, Bool.false_eq_true, false_iff, step,
      HomePage.useEffect]
    split <;> simp
  | logout =>
    simp [Op.completesRegistration, step, HomePage.handleLogout]

/-- C10: starting from an empty storage, after every sequence of operations the `user` item
is present exactly when some operation of the sequence was a sign-up submission that
completed (fields filled in, credential returned), which is exactly when it reported
`Registration successful!`; every other operation (a login, a logout, an admission check,
a rejected or failed registration) leaves the `user` item as it was. -/
theorem identity_record_iff_registered :
    (∀ ops : List Op, ((run Storage.empty ops).1.getItem Key.user).isSome
      = ops.any Op.completesRegistration) ∧
    (∀ (st : Storage) (op : Op), op.completesRegistration = false →
      (step st op).1.getItem Key.user = st.getItem Key.user) ∧
    (∀ (st : Storage) (op : Op), op.completesRegistration = true ↔
      Effect.setMessage (lit "Registration successful!") ∈ (step st op).2) := by
  refine ⟨?_, step_user_unchanged, step_reports_registration⟩
  intro ops
  rw [run_user_isSome ops Storage.empty]
  rfl

/-! ## Submitting again after a failed ceremony -/

theorem truthy_registering_error (reason : JSString) :
    truthy? (some (lit "Error registering fingerprint: " ++ reason)) = true := by
  have h : lit "Error registering fingerprint: "
      = 69 :: lit "rror registering fingerprint: " := by decide
  simp [truthy?, JSString.truthy, h]

theorem truthy_verifying_error (reason : JSString) :
    truthy? (some (lit "Error verifying fingerprint: " ++ reason)) = true := by
  have h : lit "Error verifying fingerprint: "
      = 69 :: lit "rror verifying fingerprint: " := by decide
  simp [truthy?, JSString.truthy, h]

/-- Typing in a field of the sign-up form does not change the `disabled` attribute. -/
theorem signup_typing_keeps_disabled (name : SignupPage.Field) (value : JSString)
    (pg : SignupPage.State) :
    SignupPage.submitDisabled (SignupPage.handleInputChange name value pg)
      = SignupPage.submitDisabled pg := by
  cases name <;> rfl

/-- Typing in a field of the login form does not change the `disabled` attribute. -/
theorem login_typing_keeps_disabled (name : LoginPage.Field) (value : JSString)
    (pg : LoginPage.State) :
    LoginPage.submitDisabled (LoginPage.handleInputChange name value pg)
      = LoginPage.submitDisabled pg := by
  cases name <;> rfl

/-- After a sign-up submission whose `navigator.credentials.create` was rejected, the
submit button is disabled: any further submission of that form, on any platform and
storage, performs no effect. -/
theorem signup_failure_disables_submit (pf : Platform) (pg : SignupPage.State) (st : Storage)
    (reason : JSString)
    (hu : pg.formData.username ≠ []) (he : pg.formData.email ≠ [])
    (hp : pg.formData.password ≠ [])
    (hcreate : pf.create = Settled.rejected reason) :
    SignupPage.submitDisabled (SignupPage.handleSubmit pf pg st).page = true ∧
    ∀ (pf2 : Platform) (st2 : Storage),
      SignupPage.onSubmit pf2 (SignupPage.handleSubmit pf pg st).page st2
        = ⟨(SignupPage.handleSubmit pf pg st).page, st2, []⟩ := by
  have hd : SignupPage.submitDisabled (SignupPage.handleSubmit pf pg st).page = true := by
    rw [signup_handleSubmit_filled pf pg st hu he hp,
      registerFingerprint_rejected pf pg st reason hcreate]
    simp [SignupPage.submitDisabled, truthy_registering_error]
  refine ⟨hd, fun pf2 st2 => ?_⟩
  simp [SignupPage.onSubmit, hd]

/-- After a login submission on a matching record whose `navigator.credentials.get` was
rejected, the submit button is disabled: any further submission of that form, on any
platform and storage, performs no effect. -/
theorem login_failure_disables_submit (pf : Platform) (pg : LoginPage.State) (st : Storage)
    (v : JSON) (reason : JSString)
    (he : pg.formData.email ≠ []) (hp : pg.formData.password ≠ [])
    (hv : LoginPage.userData st = some v)
    (heq : v.getProperty (lit "email") = some (JSON.string pg.formData.email))
    (hget : pf.get = Settled.rejected reason) :
    LoginPage.submitDisabled (LoginPage.handleSubmit pf pg st).page = true ∧
    ∀ (pf2 : Platform) (st2 : Storage),
      LoginPage.onSubmit pf2 (LoginPage.handleSubmit pf pg st).page st2
        = ⟨(LoginPage.handleSubmit pf pg st).page, st2, []⟩ := by
  have hd : LoginPage.submitDisabled (LoginPage.handleSubmit pf pg st).page = true := by
    rw [login_handleSubmit_filled pf pg st he hp,
      verifyFingerprint_rejected pf pg st v reason hv heq hget]
    simp [LoginPage.submitDisabled, truthy_verifying_error]
  refine ⟨hd, fun pf2 st2 => ?_⟩
  simp [LoginPage.onSubmit, hd]

/-- The same happens after the validation message: a sign-up submission with an empty
field leaves the submit button disabled, so the completed form cannot be submitted. -/
theorem signup_validation_disables_submit (pf : Platform) (pg : SignupPage.State)
    (st : Storage)
    (h : pg.formData.username = [] ∨ pg.formData.email = [] ∨ pg.formData.password = []) :
    SignupPage.submitDisabled (SignupPage.handleSubmit pf pg st).page = true := by
  rw [signup_handleSubmit_empty pf pg st h]
  have hl : truthy? (some (lit "Please fill in all fields")) = true := by decide
  simp [SignupPage.submitDisabled, hl]

/-- C11, the failing input: Alice's sign-up form, mounted on a supported platform with the
three fields filled in, has its submit button enabled and its first submission reaches
`navigator.credentials.create`, which times out. The `error` state now holds
`Error registering fingerprint: ...`, the fields are still the valid ones, and the submit
button is disabled: a second submission of the form, on a platform whose ceremony would now
succeed, performs no effect, stores nothing and leaves the component as it was. The login
form on Alice's stored record does the same after `navigator.credentials.get` times out. -/
theorem failed_ceremony_blocks_resubmission :
    (SignupPage.submitDisabled aliceMountedSignup = false ∧
      Effect.credentialsCreate aliceOptions ∈ aliceFailedSignup.trace ∧
      aliceFailedSignup.page.error = some (lit "Error registering fingerprint: " ++
        lit "NotAllowedError: The operation either timed out or was not allowed.") ∧
      aliceFailedSignup.page.formData = ⟨lit "alice", lit "alice@x.com", lit "pw1"⟩ ∧
      SignupPage.submitDisabled aliceFailedSignup.page = true ∧
      (SignupPage.onSubmit demoPlatform aliceFailedSignup.page aliceFailedSignup.storage).trace
        = [] ∧
      (SignupPage.onSubmit demoPlatform aliceFailedSignup.page
        aliceFailedSignup.storage).storage = Storage.empty ∧
      (SignupPage.onSubmit demoPlatform aliceFailedSignup.page aliceFailedSignup.storage).page
        = aliceFailedSignup.page) ∧
    (LoginPage.submitDisabled aliceMountedLogin = false ∧
      Effect.credentialsGet (LoginPage.getCredentialOptions (getRandomValues timeoutPlatform 32))
        ∈ aliceFailedLogin.trace ∧
      aliceFailedLogin.page.error = some (lit "Error verifying fingerprint: " ++
        lit "NotAllowedError: The operation either timed out or was not allowed.") ∧
      aliceFailedLogin.page.formData = ⟨lit "alice@x.com", lit "anything"⟩ ∧
      LoginPage.submitDisabled aliceFailedLogin.page = true ∧
      (LoginPage.onSubmit demoPlatform aliceFailedLogin.page aliceFailedLogin.storage).trace
        = [] ∧
      (LoginPage.onSubmit demoPlatform aliceFailedLogin.page aliceFailedLogin.storage).storage
        = aliceStorage ∧
      HomePage.isAdmitted
        (LoginPage.onSubmit demoPlatform aliceFailedLogin.page aliceFailedLogin.storage).storage
        = false) := by
  decide

/-! ## Submitting while the availability promise is pending -/

/-- Settling the availability promise after the fields were typed gives the same state as
settling it before. -/
theorem settled_after_typing (pf : Platform) :
    (∀ username email password : JSString,
      SignupPage.promiseSettled pf (SignupPage.pendingForm pf username email password)
        = SignupPage.mountedForm pf username email password) ∧
    (∀ email password : JSString,
      LoginPage.promiseSettled pf (LoginPage.pendingForm pf email password)
        = LoginPage.mountedForm pf email password) := by
  refine ⟨?_, ?_⟩
  · intro username email password
    cases hpk : pf.publicKeyCredential with
    | false =>
      simp [SignupPage.promiseSettled, SignupPage.pendingForm, SignupPage.mountedForm, hpk]
    | true =>
      cases ha : pf.authenticatorAvailable with
      | rejected reason =>
        simp [SignupPage.promiseSettled, SignupPage.pendingForm, SignupPage.mountedForm, hpk,
          ha, SignupPage.availabilitySettled, SignupPage.handleInputChange]
      | resolved available =>
        cases available <;>
          simp [SignupPage.promiseSettled, SignupPage.pendingForm, SignupPage.mountedForm, hpk,
            ha, SignupPage.availabilitySettled, SignupPage.handleInputChange]
  · intro email password
    cases hpk : pf.publicKeyCredential with
    | false =>
      simp [LoginPage.promiseSettled, LoginPage.pendingForm, LoginPage.mountedForm, hpk]
    | true =>
      cases ha : pf.authenticatorAvailable with
      | rejected reason =>
        simp [LoginPage.promiseSettled, LoginPage.pendingForm, LoginPage.mountedForm, hpk,
          ha, LoginPage.availabilitySettled, LoginPage.handleInputChange]
      | resolved available =>
        cases available <;>
          simp [LoginPage.promiseSettled, LoginPage.pendingForm, LoginPage.mountedForm, hpk,
            ha, LoginPage.availabilitySettled, LoginPage.handleInputChange]

/-- With `window.PublicKeyCredential`, while the availability promise is pending the submit
button is enabled, whatever the promise will settle with: a submission runs
`handleSubmit`, which has no support check of its own. -/
theorem pending_form_submits (pf : Platform) (hpk : pf.publicKeyCredential = true) :
    (∀ (username email password : JSString) (st : Storage),
      SignupPage.submitDisabled (SignupPage.pendingForm pf username email password) = false ∧
      SignupPage.onSubmit pf (SignupPage.pendingForm pf username email password) st
        = SignupPage.handleSubmit pf (SignupPage.pendingForm pf username email password) st) ∧
    (∀ (email password : JSString) (st : Storage),
      LoginPage.submitDisabled (LoginPage.pendingForm pf email password) = false ∧
      LoginPage.onSubmit pf (LoginPage.pendingForm pf email password) st
        = LoginPage.handleSubmit pf (LoginPage.pendingForm pf email password) st) := by
  refine ⟨?_, ?_⟩
  · intro username email password st
    have hd : SignupPage.submitDisabled (SignupPage.pendingForm pf username email password)
        = false := by
      simp [SignupPage.pendingForm, SignupPage.handleInputChange, SignupPage.useEffect, hpk,
        SignupPage.submitDisabled, SignupPage.initial, truthy?]
    exact ⟨hd, by simp [SignupPage.onSubmit, hd]⟩
  · intro email password st
    have hd : LoginPage.submitDisabled (LoginPage.pendingForm pf email password) = false := by
      simp [LoginPage.pendingForm, LoginPage.handleInputChange, LoginPage.useEffect, hpk,
        LoginPage.submitDisabled, LoginPage.initial, truthy?]
    exact ⟨hd, by simp [LoginPage.onSubmit, hd]⟩

/-- C7, the failing input: a device whose `isUserVerifyingPlatformAuthenticatorAvailable()`
resolves with `false`, in a browser with `window.PublicKeyCredential`. The mount effect has
called `setSupported(true)` and the promise is still pending, so the submit button of
Alice's filled-in sign-up form is enabled. Its submission calls
`navigator.credentials.create`; when that returns a credential the record is stored and
`Registration successful!` is reported with no error, and the error of the support check
only appears when the promise settles afterwards; when the call is refused the error is
`Error registering fingerprint: ...`, not the one of the support check. The login form on
Alice's stored record likewise calls `navigator.credentials.get` and, on an assertion, sets
`isAuthenticated`, so the home page admits. -/
theorem submission_before_availability_settles :
    (noAuthenticatorPlatform.publicKeyCredential = true ∧
      noAuthenticatorPlatform.authenticatorAvailable = Settled.resolved false ∧
      refusingPlatform.authenticatorAvailable = Settled.resolved false) ∧
    (SignupPage.submitDisabled
        (SignupPage.pendingForm noAuthenticatorPlatform (lit "alice") (lit "alice@x.com")
          (lit "pw1")) = false ∧
      Effect.credentialsCreate aliceOptions ∈
        (SignupPage.onSubmit noAuthenticatorPlatform
          (SignupPage.pendingForm noAuthenticatorPlatform (lit "alice") (lit "alice@x.com")
            (lit "pw1")) Storage.empty).trace ∧
      (SignupPage.onSubmit noAuthenticatorPlatform
          (SignupPage.pendingForm noAuthenticatorPlatform (lit "alice") (lit "alice@x.com")
            (lit "pw1")) Storage.empty).storage.getItem Key.user
        = some (JSON.stringify
          { username := lit "alice", email := lit "alice@x.com",
            credentialId := lit "AQID" }) ∧
      (SignupPage.onSubmit noAuthenticatorPlatform
          (SignupPage.pendingForm noAuthenticatorPlatform (lit "alice") (lit "alice@x.com")
            (lit "pw1")) Storage.empty).page.message = lit "Registration successful!" ∧
      (SignupPage.onSubmit noAuthenticatorPlatform
          (SignupPage.pendingForm noAuthenticatorPlatform (lit "alice") (lit "alice@x.com")
            (lit "pw1")) Storage.empty).page.error = none ∧
      (SignupPage.promiseSettled noAuthenticatorPlatform
          (SignupPage.onSubmit noAuthenticatorPlatform
            (SignupPage.pendingForm noAuthenticatorPlatform (lit "alice") (lit "alice@x.com")
              (lit "pw1")) Storage.empty).page).error
        = some (lit "Fingerprint authentication is not available on this device")) ∧
    (Effect.credentialsCreate aliceOptions ∈
        (SignupPage.onSubmit refusingPlatform
          (SignupPage.pendingForm refusingPlatform (lit "alice") (lit "alice@x.com")
            (lit "pw1")) Storage.empty).trace ∧
      (SignupPage.onSubmit refusingPlatform
          (SignupPage.pendingForm refusingPlatform (lit "alice") (lit "alice@x.com")
            (lit "pw1")) Storage.empty).page.error
        = some (lit "Error registering fingerprint: " ++
          lit "NotAllowedError: The operation either timed out or was not allowed.")) ∧
    (LoginPage.submitDisabled
        (LoginPage.pendingForm noAuthenticatorPlatform (lit "alice@x.com") (lit "anything"))
        = false ∧
      Effect.credentialsGet
          (LoginPage.getCredentialOptions (getRandomValues noAuthenticatorPlatform 32)) ∈
        (LoginPage.onSubmit noAuthenticatorPlatform
          (LoginPage.pendingForm noAuthenticatorPlatform (lit "alice@x.com") (lit "anything"))
          aliceStorage).trace ∧
      (LoginPage.onSubmit noAuthenticatorPlatform
          (LoginPage.pendingForm noAuthenticatorPlatform (lit "alice@x.com") (lit "anything"))
          aliceStorage).storage.getItem Key.isAuthenticated = some (lit "true") ∧
      HomePage.isAdmitted
        (LoginPage.onSubmit noAuthenticatorPlatform
          (LoginPage.pendingForm noAuthenticatorPlatform (lit "alice@x.com") (lit "anything"))
          aliceStorage).storage = true) :=
  ⟨⟨rfl, rfl, rfl⟩, by decide, by decide, by decide⟩

end Poc
